import Mathlib

/-!
Shallow embedding of the vineyard decision engine of
`Mildiou_App/mildiou_prevention.py`, together with proofs about its
documented properties.

Modelling conventions:
* Python floats are idealised as rationals (`ℚ`).
* A value stored under a key of a Python weather dict may be absent,
  present but `None` (null), or a number; this is the `Champ` type.
* A falsy list entry (missing date giving the empty dict `{}`, or `None`)
  is `Option.none` at the list level; `if m:` filters exactly those.
* Fallible code paths (Python exceptions: `TypeError` on arithmetic with
  `None`, `KeyError` on indexing, `ZeroDivisionError`) are modelled with
  `Except Unit`.
* ISO date strings are compared lexicographically in the source, which on
  valid dates agrees with calendar order; dates used only for ordering and
  day differences are embedded as integers (day numbers), and dates whose
  year is inspected are embedded as `PyDate` (year, ordinal-in-year) with
  lexicographic order.
-/

/-- A value stored under a key of a Python weather dict: the key may be
absent, present with value `None`, or present with a number. -/
inductive Champ where
  | absent
  | null
  | val (x : ℚ)
deriving DecidableEq

/-- Python `m.get(k, d)`: the default when the key is absent, otherwise the
stored value, which may still be Python `None` (`Option.none` here). -/
def Champ.getD (f : Champ) (d : ℚ) : Option ℚ :=
  match f with
  | .absent => some d
  | .null => none
  | .val x => some x

/-- Python `m.get(k)` (default `None`). -/
def Champ.getOpt (f : Champ) : Option ℚ :=
  match f with
  | .absent => none
  | .null => none
  | .val x => some x

/-- Python `m[k]` used in an arithmetic context: `KeyError` when the key is
absent, and the arithmetic raises `TypeError` when the value is `None`. -/
def Champ.getNum (f : Champ) : Except Unit ℚ :=
  match f with
  | .val x => .ok x
  | _ => .error ()

/-- One day of the weather history (`_format_meteo_data` /
`_mettre_a_jour_historique_meteo` record). -/
structure WeatherDay where
  temp_max : Champ := .absent
  temp_min : Champ := .absent
  temp_moy : Champ := .absent
  precipitation : Champ := .absent
  humidite : Champ := .absent
  etp : Champ := .absent
  gdd_jour : Champ := .absent
deriving DecidableEq

/-- Python `round(x)` : round half to even (floats idealised as rationals). -/
def pyRound (x : ℚ) : ℤ :=
  if x - ⌊x⌋ < 1/2 then ⌊x⌋
  else if 1/2 < x - ⌊x⌋ then ⌊x⌋ + 1
  else if ⌊x⌋ % 2 = 0 then ⌊x⌋ else ⌊x⌋ + 1

/-- Python `round(x, 1)`. -/
def pyRound1 (x : ℚ) : ℚ := (pyRound (x * 10) : ℚ) / 10

-- ========================= DEFINITIONS =========================

namespace ModeleSimple

/-- `sum(m.get('precipitation', 0) for m in meteo_48h if m)` over the
non-falsy records: `TypeError` (error) when a record stores
`precipitation = None`. -/
def somme_pluie : List WeatherDay → Except Unit ℚ
  | [] => .ok 0
  | w :: ws =>
    match w.precipitation.getD 0 with
    | none => .error ()
    | some p => (somme_pluie ws).map (fun s => p + s)

/-- `m.get('precipitation', 0) > 1`.  The `none` case cannot be reached in
`calculer_risque_infection`: `somme_pluie` has already raised on it. -/
def est_humide (w : WeatherDay) : Bool :=
  match w.precipitation.getD 0 with
  | some p => decide (p > 1)
  | none => false

/-- `sum(m['temp_moy'] for m in jours_humides)`: `KeyError` / `TypeError`
when a wet day has no numeric mean temperature. -/
def somme_temp_humides : List WeatherDay → Except Unit ℚ
  | [] => .ok 0
  | w :: ws =>
    match w.temp_moy.getNum with
    | .error e => .error e
    | .ok t => (somme_temp_humides ws).map (fun s => t + s)

/-- Rain-total contribution to the base score (lines 245-247). -/
def score_pluie (pluie_totale : ℚ) : ℚ :=
  if pluie_totale ≥ 10 then 5 else if pluie_totale ≥ 5 then 3
  else if pluie_totale ≥ 2 then 1 else 0

/-- Temperature-band contribution to the base score (lines 248-250). -/
def score_temp (temp_moy : ℚ) : ℚ :=
  if 20 ≤ temp_moy ∧ temp_moy ≤ 25 then 4
  else if 15 ≤ temp_moy ∧ temp_moy ≤ 28 then 2
  else if 10 ≤ temp_moy ∧ temp_moy ≤ 30 then 1 else 0

/-- Humidity contribution to the base score (line 254). -/
def score_humidite (humid_moy : ℚ) : ℚ :=
  if humid_moy > 85 then 1 else 0

/-- Base score from the three independent threshold groups plus the final
scaling, clamping, tiering and rounding (lines 244-260 of the source). -/
def score_et_niveau (pluie_totale temp_moy humid_moy stade_coef sensibilite_cepage : ℚ) :
    ℚ × String :=
  let score_base := score_pluie pluie_totale + score_temp temp_moy + score_humidite humid_moy
  let score_final := score_base * stade_coef * (sensibilite_cepage / 5)
  let score_final := min 10 score_final
  let niveau := if score_final ≥ 7 then "FORT"
    else if score_final ≥ 4 then "MOYEN" else "FAIBLE"
  (pyRound1 score_final, niveau)

/-- `ModeleSimple.calculer_risque_infection` (lines 232-260). -/
def calculer_risque_infection (meteo_48h : List (Option WeatherDay))
    (stade_coef sensibilite_cepage : ℚ) : Except Unit (ℚ × String) :=
  if meteo_48h = [] then .ok (0, "FAIBLE") else
  let presents := meteo_48h.filterMap id
  match somme_pluie presents with
  | .error e => .error e
  | .ok pluie_totale =>
    let jours_humides := presents.filter est_humide
    let temp_moy_list := presents.filterMap (fun w => w.temp_moy.getOpt)
    if temp_moy_list = [] then .ok (0, "FAIBLE") else
    let temp_moy_exc : Except Unit ℚ :=
      if jours_humides.length ≠ 0 then
        (somme_temp_humides jours_humides).map
          (fun s => s / (jours_humides.length : ℚ))
      else .ok (temp_moy_list.sum / (temp_moy_list.length : ℚ))
    match temp_moy_exc with
    | .error e => .error e
    | .ok temp_moy =>
      let humid_moy_list := presents.filterMap (fun w => w.humidite.getOpt)
      if humid_moy_list = [] then .ok (0, "FAIBLE") else
      let humid_moy := humid_moy_list.sum / (humid_moy_list.length : ℚ)
      .ok (score_et_niveau pluie_totale temp_moy humid_moy stade_coef sensibilite_cepage)

end ModeleSimple

namespace ModeleOidium

/-- Per-day score of the powdery-mildew heuristic (lines 320-331). -/
def daily_score (w : WeatherDay) : ℤ :=
  let temp_max := w.temp_max.getD 0
  let humid := w.humidite.getD 0
  let pluie := w.precipitation.getD 0
  let d0 : ℤ :=
    if (match temp_max with | some t => decide (t ≥ 33) | none => false) then -2
    else if (match temp_max, humid with
             | some t, some h => decide (20 ≤ t ∧ t ≤ 28 ∧ h ≥ 60)
             | _, _ => false) then 3
    else if (match temp_max, humid with
             | some t, some h => decide (15 ≤ t ∧ t ≤ 30 ∧ h ≥ 50)
             | _, _ => false) then 1
    else 0
  let d1 : ℤ :=
    if (match pluie with | some p => decide (p ≥ 5) | none => false) then d0 - 1 else d0
  max d1 (-2)

/-- `ModeleOidium.calculer_risque_infection` (lines 316-341). -/
def calculer_risque_oidium (meteo_7j : List (Option WeatherDay)) (stade_coef : ℚ) :
    ℚ × String :=
  if meteo_7j = [] then (0, "FAIBLE") else
  let presents := meteo_7j.filterMap id
  let jours_comptes : ℤ := presents.length
  let score_total : ℤ := (presents.map daily_score).sum
  let max_score_possible : ℤ := jours_comptes * 3
  if max_score_possible = 0 then (0, "FAIBLE") else
  let score_final_brut : ℚ := ((score_total : ℚ) / (max_score_possible : ℚ)) * 10
  let score_final_brut := max 0 score_final_brut
  let score_final := score_final_brut * (stade_coef / (3/2))
  let score_final := min 10 (max 0 score_final)
  let niveau := if score_final ≥ 7 then "FORT"
    else if score_final ≥ 4 then "MOYEN" else "FAIBLE"
  (pyRound1 score_final, niveau)

end ModeleOidium

namespace ModeleIPI

/-- `ModeleIPI._interpolate` (lines 274-277). -/
def interpolate (x x0 y0 x1 y1 : ℚ) : ℚ :=
  if x1 = x0 then y0 else y0 + (x - x0) * (y1 - y0) / (x1 - x0)

/-- Last element of a key list (`keys[-1]`). -/
def lastD : List ℚ → ℚ → ℚ
  | [], d => d
  | [x], _ => x
  | _ :: y :: ys, d => lastD (y :: ys) d

/-- The scan `for i in range(len(keys)-1): if keys[i] <= value < keys[i+1]`. -/
def findPair : List ℚ → ℚ → Option (ℚ × ℚ)
  | k0 :: k1 :: rest, v =>
    if k0 ≤ v ∧ v < k1 then some (k0, k1) else findPair (k1 :: rest) v
  | _, _ => none

/-- `ModeleIPI._find_bounding_keys` (lines 278-284); the key lists of
`IPI_TABLE` are embedded already sorted, matching Python `sorted(keys)`. -/
def find_bounding_keys (keys : List ℚ) (value : ℚ) : ℚ × ℚ :=
  match keys with
  | [] => (0, 0)
  | k :: ks =>
    let last := lastD (k :: ks) k
    if value ≤ k then (k, k)
    else if value ≥ last then (last, last)
    else
      match findPair (k :: ks) value with
      | some p => p
      | none => (last, last)

/-- Python dict lookup over an association list (keys are distinct). -/
def lookupD : List (ℚ × ℚ) → ℚ → ℚ
  | [], _ => 0
  | (a, b) :: rest, k => if k = a then b else lookupD rest k

def lookupTable : List (ℚ × List (ℚ × ℚ)) → ℚ → List (ℚ × ℚ)
  | [], _ => []
  | (a, b) :: rest, k => if k = a then b else lookupTable rest k

def durees_10 : List (ℚ × ℚ) := [(6, 10), (9, 20), (12, 30), (15, 40), (18, 50)]
def durees_13 : List (ℚ × ℚ) := [(5, 10), (7, 20), (10, 30), (12, 40), (15, 60), (18, 80)]
def durees_16 : List (ℚ × ℚ) := [(4, 10), (6, 20), (8, 30), (10, 50), (12, 70), (15, 90)]
def durees_19 : List (ℚ × ℚ) := [(3, 10), (5, 20), (7, 40), (9, 60), (11, 80), (13, 100)]
def durees_21 : List (ℚ × ℚ) := [(3, 10), (4, 20), (6, 50), (8, 80), (10, 100)]
def durees_24 : List (ℚ × ℚ) := [(3, 10), (4, 30), (6, 70), (8, 100)]
def durees_27 : List (ℚ × ℚ) := [(3, 20), (5, 60), (7, 100)]

/-- `ModeleIPI.IPI_TABLE` (lines 265-273), keys in `sorted` order. -/
def IPI_TABLE : List (ℚ × List (ℚ × ℚ)) :=
  [(10, durees_10), (13, durees_13), (16, durees_16), (19, durees_19),
   (21, durees_21), (24, durees_24), (27, durees_27)]

/-- The repeated three-line pattern of `calculer_ipi` (lines 291-294 and
296-299): bound the wetness duration inside one temperature sub-table and
interpolate the severity along the duration axis. -/
def ipi_pour_table (durees : List (ℚ × ℚ)) (duree : ℚ) : ℚ :=
  let keys := durees.map Prod.fst
  let p := find_bounding_keys keys duree
  interpolate duree p.1 (lookupD durees p.1) p.2 (lookupD durees p.2)

/-- `ModeleIPI.calculer_ipi` (lines 285-301). -/
def calculer_ipi (meteo_evenement : WeatherDay) (duree_humectation_estimee : ℚ) : ℤ :=
  match meteo_evenement.temp_moy.getOpt with
  | none => 0
  | some temp =>
    if temp < 10 ∨ temp > 27 then 0 else
    let temp_keys := IPI_TABLE.map Prod.fst
    let tp := find_bounding_keys temp_keys temp
    let ipi_t0 := ipi_pour_table (lookupTable IPI_TABLE tp.1) duree_humectation_estimee
    if tp.1 = tp.2 then pyRound (max 0 ipi_t0)
    else
      let ipi_t1 := ipi_pour_table (lookupTable IPI_TABLE tp.2) duree_humectation_estimee
      pyRound (max 0 (interpolate temp tp.1 ipi_t0 tp.2 ipi_t1))

/-- A weather event with the given mean temperature. -/
def meteoTemp (t : ℚ) : WeatherDay := { temp_moy := .val t }

/-- Piecewise closed form of `ipi_pour_table durees_10`, for the proofs. -/
def pw_10 (d : ℚ) : ℚ :=
  if d ≤ 6 then 10
  else if 18 ≤ d then 50
  else if d < 9 then interpolate d 6 10 9 20
  else if d < 12 then interpolate d 9 20 12 30
  else if d < 15 then interpolate d 12 30 15 40
  else interpolate d 15 40 18 50

/-- Piecewise closed form of `ipi_pour_table durees_13`, for the proofs. -/
def pw_13 (d : ℚ) : ℚ :=
  if d ≤ 5 then 10
  else if 18 ≤ d then 80
  else if d < 7 then interpolate d 5 10 7 20
  else if d < 10 then interpolate d 7 20 10 30
  else if d < 12 then interpolate d 10 30 12 40
  else if d < 15 then interpolate d 12 40 15 60
  else interpolate d 15 60 18 80

/-- Piecewise closed form of `ipi_pour_table durees_16`, for the proofs. -/
def pw_16 (d : ℚ) : ℚ :=
  if d ≤ 4 then 10
  else if 15 ≤ d then 90
  else if d < 6 then interpolate d 4 10 6 20
  else if d < 8 then interpolate d 6 20 8 30
  else if d < 10 then interpolate d 8 30 10 50
  else if d < 12 then interpolate d 10 50 12 70
  else interpolate d 12 70 15 90

/-- Piecewise closed form of `ipi_pour_table durees_19`, for the proofs. -/
def pw_19 (d : ℚ) : ℚ :=
  if d ≤ 3 then 10
  else if 13 ≤ d then 100
  else if d < 5 then interpolate d 3 10 5 20
  else if d < 7 then interpolate d 5 20 7 40
  else if d < 9 then interpolate d 7 40 9 60
  else if d < 11 then interpolate d 9 60 11 80
  else interpolate d 11 80 13 100

/-- Piecewise closed form of `ipi_pour_table durees_21`, for the proofs. -/
def pw_21 (d : ℚ) : ℚ :=
  if d ≤ 3 then 10
  else if 10 ≤ d then 100
  else if d < 4 then interpolate d 3 10 4 20
  else if d < 6 then interpolate d 4 20 6 50
  else if d < 8 then interpolate d 6 50 8 80
  else interpolate d 8 80 10 100

/-- Piecewise closed form of `ipi_pour_table durees_24`, for the proofs. -/
def pw_24 (d : ℚ) : ℚ :=
  if d ≤ 3 then 10
  else if 8 ≤ d then 100
  else if d < 4 then interpolate d 3 10 4 30
  else if d < 6 then interpolate d 4 30 6 70
  else interpolate d 6 70 8 100

/-- Piecewise closed form of `ipi_pour_table durees_27`, for the proofs. -/
def pw_27 (d : ℚ) : ℚ :=
  if d ≤ 3 then 20
  else if 7 ≤ d then 100
  else if d < 5 then interpolate d 3 20 5 60
  else interpolate d 5 60 7 100

end ModeleIPI


/-- A calendar date as (year, ordinal inside the year), ordered
lexicographically; `datetime.date` comparisons and `.year` accesses map to
this. The ordinal of March 1st is abstracted as 60. -/
structure PyDate where
  year : ℤ
  jour : ℤ
deriving DecidableEq

/-- `d1 <= d2` on dates. -/
def pyDateLe (a b : PyDate) : Bool :=
  a.year < b.year || (a.year = b.year && a.jour ≤ b.jour)

/-- March 1st of a year (`f"{annee}-03-01"`). -/
def mars1 (y : ℤ) : PyDate := ⟨y, 60⟩

/-- The fields of a parcel the decision engine reads. -/
structure Parcelle where
  nom : String := ""
  stade_actuel : String := "repos"
  date_debourrement : Option PyDate := none
deriving DecidableEq

/-- Insertion of one dated record into a date-sorted list. -/
def insertByDate (x : PyDate × WeatherDay) :
    List (PyDate × WeatherDay) → List (PyDate × WeatherDay)
  | [] => [x]
  | y :: ys => if pyDateLe x.1 y.1 then x :: y :: ys else y :: insertByDate x ys

/-- `sorted(meteo_historique.keys())`: iterate the day records in
chronological order. -/
def sortByDate (l : List (PyDate × WeatherDay)) : List (PyDate × WeatherDay) :=
  l.foldr insertByDate []

namespace ModeleBilanHydrique

/-- Season start date for the water balance (lines 357-365): the biofix
date when it is present, falls in the current year and is not in the
future, else March 1st. -/
def date_debut_bilan (parcelle : Parcelle) (aujourdhui : PyDate) : PyDate :=
  match parcelle.date_debourrement with
  | none => mars1 aujourdhui.year
  | some b =>
      if b.year = aujourdhui.year ∧ pyDateLe b aujourdhui then b
      else mars1 aujourdhui.year

/-- One day of the reservoir walk (lines 377-392): only days inside
`[date_debut, aujourdhui]` are processed; precipitation and
evapotranspiration default to 0 when absent or null; the reserve is
clamped to `[0, rfu_max_mm]` and the daily percentage recorded. -/
def bilan_pas (date_debut aujourdhui : PyDate) (rfu_max_mm : ℚ)
    (acc : ℚ × List (PyDate × ℚ)) (dw : PyDate × WeatherDay) : ℚ × List (PyDate × ℚ) :=
  if pyDateLe date_debut dw.1 ∧ pyDateLe dw.1 aujourdhui then
    let pluie := (dw.2.precipitation.getD 0).getD 0
    let etp := (dw.2.etp.getD 0).getD 0
    let rfu := max 0 (min rfu_max_mm (acc.1 + pluie - etp))
    let pct := if 0 < rfu_max_mm then rfu / rfu_max_mm * 100 else 0
    (rfu, acc.2 ++ [(dw.1, pyRound1 pct)])
  else acc

/-- Result record of `calculer_bilan_rfu`. -/
structure BilanRfu where
  rfu_pct : ℚ
  rfu_mm : ℚ
  rfu_max_mm : ℚ
  niveau : String
  historique_pct : List (PyDate × ℚ)
deriving DecidableEq

/-- `ModeleBilanHydrique.calculer_bilan_rfu` (lines 348-414); `aujourdhui`
stands for `datetime.now().date()`. -/
def calculer_bilan_rfu (meteo_historique : List (PyDate × WeatherDay))
    (parcelle : Parcelle) (stade_actuel : String) (rfu_max_mm : ℚ)
    (aujourdhui : PyDate) : BilanRfu :=
  let date_debut := date_debut_bilan parcelle aujourdhui
  let res := (sortByDate meteo_historique).foldl
    (bilan_pas date_debut aujourdhui rfu_max_mm) (rfu_max_mm, [])
  let rfu_pct : ℚ := if rfu_max_mm = 0 then 0 else res.1 / rfu_max_mm * 100
  let niveau :=
    if stade_actuel = "repos" then "Dormance"
    else if rfu_pct ≤ 30 then "STRESS FORT"
    else if rfu_pct ≤ 60 then "SURVEILLANCE"
    else "CONFORTABLE"
  { rfu_pct := pyRound1 rfu_pct
    rfu_mm := pyRound1 res.1
    rfu_max_mm := rfu_max_mm
    niveau := niveau
    historique_pct := res.2 }

end ModeleBilanHydrique

namespace GestionTraitements

/-- The embedded characteristics snapshot of a treatment
(`FONGICIDES` entry / default entry of `ajouter_traitement`). -/
structure Caracteristiques where
  nom : String := ""
  persistance_jours : ℚ := 7
  lessivage_seuil_mm : ℚ := 25
  type : String := "contact"
deriving DecidableEq

/-- One treatment of the log; dates are day numbers (ISO strings compare
like dates). -/
structure Traitement where
  parcelle : String
  date : ℤ
  caracteristiques : Caracteristiques
deriving DecidableEq

/-- `COEF_POUSSE.get(stade_actuel, 1.0)` (lines 426-429, 474). -/
def COEF_POUSSE (stade : String) : ℚ :=
  if stade = "repos" then 0
  else if stade = "debourrement" then 1/2
  else if stade = "pousse_10cm" then 2
  else if stade = "pre_floraison" then 9/5
  else if stade = "floraison" then 1
  else if stade = "nouaison" then 4/5
  else if stade = "fermeture_grappe" then 1/2
  else if stade = "veraison" then 1/5
  else if stade = "maturation" then 1/10
  else 1

/-- `max(traitements_parcelle, key=lambda x: x['date'])`: Python keeps the
first element on ties and replaces only on a strictly greater key. -/
def maxByDate : List Traitement → Traitement → Traitement
  | [], acc => acc
  | t :: rest, acc => maxByDate rest (if t.date > acc.date then t else acc)

/-- The limiting-factor message strings: "Aucun traitement",
"Traitement futur", "Persistance", "Pousse (dilution)",
f"Lessivage ({pluie:.1f}mm)". -/
inductive Facteur where
  | aucunTraitement
  | traitementFutur
  | persistance
  | pousseDilution
  | lessivage (mm : ℚ)
deriving DecidableEq

/-- Time-decay protection `max(0, 10 - (jours_ecoules / persistance * 10))`
(line 471). -/
def protection_temps (jours_ecoules : ℤ) (persistance : ℚ) : ℚ :=
  max 0 (10 - ((jours_ecoules : ℚ) / persistance * 10))

/-- Growth-dilution protection `max(0, 10 - (jours_ecoules * coef_pousse))`
(line 475). -/
def protection_pousse (jours_ecoules : ℤ) (coef_pousse : ℚ) : ℚ :=
  max 0 (10 - (jours_ecoules : ℚ) * coef_pousse)

/-- Lines 470-478: the time-decay value binds, unless the product is a
contact or penetrant and the growth-dilution value is strictly lower. -/
def protection_et_facteur (jours_ecoules : ℤ) (carac : Caracteristiques)
    (stade_actuel : String) : ℚ × Facteur :=
  let pt := protection_temps jours_ecoules carac.persistance_jours
  if carac.type = "contact" ∨ carac.type = "penetrant" then
    let pp := protection_pousse jours_ecoules (COEF_POUSSE stade_actuel)
    if pp < pt then (pp, .pousseDilution) else (pt, .persistance)
  else (pt, .persistance)

/-- Lines 479-483: total precipitation over the history dates inside
`[date du traitement, date actuelle]`; `TypeError` (error) when a summed
record stores `precipitation = None`. -/
def pluie_depuis_traitement (meteo_periode : List (ℤ × WeatherDay))
    (date_trait date_actuelle : ℤ) : Except Unit ℚ :=
  match meteo_periode with
  | [] => .ok 0
  | (d, w) :: rest =>
    if date_trait ≤ d ∧ d ≤ date_actuelle then
      match w.precipitation.getD 0 with
      | none => .error ()
      | some p =>
        (pluie_depuis_traitement rest date_trait date_actuelle).map (fun s => p + s)
    else pluie_depuis_traitement rest date_trait date_actuelle

/-- `GestionTraitements.calculer_protection_actuelle` (lines 456-487);
a zero persistence raises `ZeroDivisionError` (error). -/
def calculer_protection_actuelle (historique : List Traitement) (parcelle : String)
    (date_actuelle : ℤ) (meteo_periode : List (ℤ × WeatherDay)) (stade_actuel : String) :
    Except Unit (ℚ × Option Traitement × Facteur) :=
  match historique.filter (fun t => t.parcelle = parcelle) with
  | [] => .ok (0, none, .aucunTraitement)
  | t :: rest =>
    let dernier_traitement := maxByDate rest t
    let jours_ecoules := date_actuelle - dernier_traitement.date
    if jours_ecoules < 0 then .ok (10, some dernier_traitement, .traitementFutur)
    else if dernier_traitement.caracteristiques.persistance_jours = 0 then .error ()
    else
      let pf := protection_et_facteur jours_ecoules dernier_traitement.caracteristiques
        stade_actuel
      match pluie_depuis_traitement meteo_periode dernier_traitement.date date_actuelle with
      | .error e => .error e
      | .ok pluie_depuis =>
        let pf2 := if pluie_depuis > dernier_traitement.caracteristiques.lessivage_seuil_mm
          then ((0 : ℚ), Facteur.lessivage pluie_depuis) else pf
        .ok (pyRound1 pf2.1, some dernier_traitement, pf2.2)

end GestionTraitements

namespace SystemeDecision

def SEUIL_DECISION_HAUTE : ℚ := 5
def SEUIL_DECISION_MOYENNE : ℚ := 2

/-- The mildew decision block of `analyser_parcelle` (lines 970-980 and the
decision record of lines 1022-1028): score, action text and urgency from
the simple risk score and the protection score. -/
def decision_mildiou (risque_simple protection : ℚ) : ℚ × String × String :=
  let score_decision := risque_simple - protection
  let ad : String × String :=
    if score_decision ≥ SEUIL_DECISION_HAUTE then ("TRAITER MAINTENANT (Mildiou)", "haute")
    else if score_decision ≥ SEUIL_DECISION_MOYENNE then
      ("Surveiller - Traiter si pluie annoncée (Mildiou)", "moyenne")
    else ("Pas de traitement Mildiou nécessaire", "faible")
  (pyRound1 score_decision, ad.1, ad.2)

/-- Mode of the GDD start-date choice: the strings "1er Mars (Estimation)",
f"Biofix ({date_biofix})", the dormancy message and the error fallback. -/
inductive ModeCalcul where
  | premierMars
  | biofixMode (d : PyDate)
  | dormance
  | erreur
deriving DecidableEq

/-- GDD start-date choice of `_calculer_gdd` (lines 751-759). -/
def date_debut_gdd (parcelle : Parcelle) (aujourdhui : PyDate) : PyDate × ModeCalcul :=
  match parcelle.date_debourrement with
  | none => (mars1 aujourdhui.year, .premierMars)
  | some b =>
      if b.year = aujourdhui.year ∧ pyDateLe b aujourdhui then (b, .biofixMode b)
      else (mars1 aujourdhui.year, .premierMars)

/-- Lines 766-771: sum of the stored `gdd_jour` over the season window;
a null value raises (`TypeError`, caught by the bare except of the
function). -/
def somme_gdd (l : List (PyDate × WeatherDay)) (date_debut aujourdhui : PyDate) :
    Except Unit ℚ :=
  match l with
  | [] => .ok 0
  | (d, w) :: rest =>
    if pyDateLe date_debut d ∧ pyDateLe d aujourdhui then
      match w.gdd_jour.getD 0 with
      | none => .error ()
      | some g => (somme_gdd rest date_debut aujourdhui).map (fun s => g + s)
    else somme_gdd rest date_debut aujourdhui

/-- `GDD_STADE_MAP` in ascending key order (lines 633-637). -/
def GDD_STADE_MAP : List (ℤ × String) :=
  [(180, "debourrement"), (300, "pousse_10cm"), (500, "pre_floraison"),
   (600, "floraison"), (750, "nouaison"), (900, "fermeture_grappe"),
   (1200, "veraison"), (1500, "maturation"), (1800, "repos")]

/-- Lines 773-776: highest stage threshold reached, scanning the map in
descending order, starting from the initial value "repos". -/
def stade_estime_gdd : List (ℤ × String) → ℚ → String
  | [], _ => "repos"
  | (seuil, nom) :: rest, s =>
    if (seuil : ℚ) ≤ s then nom else stade_estime_gdd rest s

/-- Lines 778-784: first unreached threshold, scanning in ascending
order. -/
def prochain_stade : List (ℤ × String) → ℚ → Option (ℤ × String)
  | [], _ => none
  | (seuil, nom) :: rest, s =>
    if s < (seuil : ℚ) then some (seuil, nom) else prochain_stade rest s

/-- Python `int(x)`: truncation toward zero. -/
def pyInt (x : ℚ) : ℤ := if 0 ≤ x then ⌊x⌋ else -⌊-x⌋

/-- `SystemeDecision._calculer_gdd` (lines 740-790); the final component is
the `mode_calcul` string; any exception inside the body is caught and
mapped to the error result (lines 788-790). -/
def calculer_gdd (parcelle : Parcelle) (meteo_historique : List (PyDate × WeatherDay))
    (date_actuelle : PyDate) (stade_manuel : String) :
    ℤ × String × Option ℤ × Option String × ModeCalcul :=
  if stade_manuel = "repos" then (0, "repos", some 180, some "debourrement", .dormance)
  else
    let dm := date_debut_gdd parcelle date_actuelle
    match somme_gdd (sortByDate meteo_historique) dm.1 date_actuelle with
    | .error _ => (0, "repos", none, none, .erreur)
    | .ok gdd_sum =>
      let prochain := prochain_stade GDD_STADE_MAP gdd_sum
      (pyInt gdd_sum, stade_estime_gdd GDD_STADE_MAP.reverse gdd_sum,
        prochain.map Prod.fst, prochain.map Prod.snd, dm.2)

end SystemeDecision


-- ========================= THEOREMS =========================

theorem floor_le_pyRound (x : ℚ) : ⌊x⌋ ≤ pyRound x := by
  unfold pyRound; split_ifs <;> omega

theorem pyRound_le_floor_add_one (x : ℚ) : pyRound x ≤ ⌊x⌋ + 1 := by
  unfold pyRound; split_ifs <;> omega

theorem pyRound_mono {x y : ℚ} (h : x ≤ y) : pyRound x ≤ pyRound y := by
  have hf : ⌊x⌋ ≤ ⌊y⌋ := Int.floor_mono h
  rcases lt_or_eq_of_le hf with hLt | hEq
  · calc pyRound x ≤ ⌊x⌋ + 1 := pyRound_le_floor_add_one x
      _ ≤ ⌊y⌋ := by omega
      _ ≤ pyRound y := floor_le_pyRound y
  · have hfr : x - (⌊x⌋ : ℚ) ≤ y - (⌊y⌋ : ℚ) := by
      rw [hEq]; linarith
    unfold pyRound
    rw [hEq]
    rw [hEq] at hfr
    split_ifs <;> first | omega | linarith

theorem pyRound_intCast (n : ℤ) : pyRound (n : ℚ) = n := by
  unfold pyRound
  rw [Int.floor_intCast]
  have h0 : (n : ℚ) - (n : ℚ) < 1/2 := by norm_num
  rw [if_pos h0]

theorem pyRound_le_int {x : ℚ} {n : ℤ} (h : x ≤ (n : ℚ)) : pyRound x ≤ n := by
  have := pyRound_mono h
  rwa [pyRound_intCast] at this

theorem int_le_pyRound {x : ℚ} {n : ℤ} (h : (n : ℚ) ≤ x) : n ≤ pyRound x := by
  have := pyRound_mono h
  rwa [pyRound_intCast] at this

theorem pyRound1_mono {x y : ℚ} (h : x ≤ y) : pyRound1 x ≤ pyRound1 y := by
  unfold pyRound1
  have h2 : (pyRound (x * 10) : ℚ) ≤ (pyRound (y * 10) : ℚ) := by
    exact_mod_cast pyRound_mono (by linarith : x * 10 ≤ y * 10)
  linarith

theorem pyRound1_nonneg {x : ℚ} (h : 0 ≤ x) : 0 ≤ pyRound1 x := by
  unfold pyRound1
  have h2 : (0 : ℤ) ≤ pyRound (x * 10) := int_le_pyRound (by push_cast; linarith)
  have h3 : (0 : ℚ) ≤ (pyRound (x * 10) : ℚ) := by exact_mod_cast h2
  linarith

theorem pyRound1_le_ten {x : ℚ} (h : x ≤ 10) : pyRound1 x ≤ 10 := by
  unfold pyRound1
  have h2 : pyRound (x * 10) ≤ (100 : ℤ) := pyRound_le_int (by push_cast; linarith)
  have h3 : ((pyRound (x * 10) : ℚ)) ≤ 100 := by exact_mod_cast h2
  linarith

theorem pyRound1_le_hundred {x : ℚ} (h : x ≤ 100) : pyRound1 x ≤ 100 := by
  unfold pyRound1
  have h2 : pyRound (x * 10) ≤ (1000 : ℤ) := pyRound_le_int (by push_cast; linarith)
  have h3 : ((pyRound (x * 10) : ℚ)) ≤ 1000 := by exact_mod_cast h2
  linarith

theorem pyRound_eq_low {x : ℚ} {n : ℤ} (h1 : (n : ℚ) ≤ x) (h2 : x < (n : ℚ) + 1/2) :
    pyRound x = n := by
  have hf : ⌊x⌋ = n := Int.floor_eq_iff.mpr ⟨h1, by linarith⟩
  unfold pyRound
  rw [hf, if_pos (by linarith)]

theorem pyRound_eq_high {x : ℚ} {n : ℤ} (h1 : (n : ℚ) - 1/2 < x) (h2 : x ≤ (n : ℚ)) :
    pyRound x = n := by
  rcases eq_or_lt_of_le h2 with hEq | hLt
  · exact hEq ▸ pyRound_intCast n
  · have hf : ⌊x⌋ = n - 1 := Int.floor_eq_iff.mpr ⟨by push_cast; linarith, by push_cast; linarith⟩
    unfold pyRound
    rw [hf]
    rw [if_neg (by push_cast; linarith), if_pos (by push_cast; linarith)]
    omega

/-- `round(n, 1) = n` for whole numbers. -/
theorem pyRound1_int (n : ℤ) : pyRound1 (n : ℚ) = (n : ℚ) := by
  unfold pyRound1
  rw [show ((n : ℚ) * 10) = (((n * 10 : ℤ)) : ℚ) by push_cast; ring, pyRound_intCast]
  push_cast
  ring

theorem pyRound1_zero : pyRound1 0 = 0 := by exact_mod_cast pyRound1_int 0

theorem pyRound1_five : pyRound1 5 = 5 := by exact_mod_cast pyRound1_int 5

theorem pyRound1_ten : pyRound1 10 = 10 := by exact_mod_cast pyRound1_int 10

theorem pyRound1_neg_ten : pyRound1 (-10) = -10 := by exact_mod_cast pyRound1_int (-10)

/-- `round(n/10, 1) = n/10`: values with one decimal are fixed by rounding. -/
theorem pyRound1_tenth (n : ℤ) : pyRound1 ((n : ℚ) / 10) = (n : ℚ) / 10 := by
  unfold pyRound1
  rw [div_mul_cancel₀ _ (by norm_num : (10 : ℚ) ≠ 0), pyRound_intCast]

instance {e a : Type _} [DecidableEq e] [DecidableEq a] : DecidableEq (Except e a) := fun x y =>
  match x, y with
  | .ok u, .ok v =>
    if h : u = v then isTrue (by rw [h]) else isFalse (fun hh => by cases hh; exact h rfl)
  | .error u, .error v =>
    if h : u = v then isTrue (by rw [h]) else isFalse (fun hh => by cases hh; exact h rfl)
  | .ok _, .error _ => isFalse (fun hh => by cases hh)
  | .error _, .ok _ => isFalse (fun hh => by cases hh)

section Essais

example : ModeleSimple.calculer_risque_infection [] 1 5 = .ok (0, "FAIBLE") := by
  norm_num [ModeleSimple.calculer_risque_infection]

example :
    ModeleSimple.calculer_risque_infection
      [some { precipitation := .val 10, temp_moy := .val 22, humidite := .val 90 }] 1 7 =
    .ok (10, "FORT") := by
  norm_num [ModeleSimple.calculer_risque_infection, ModeleSimple.somme_pluie,
    ModeleSimple.est_humide, ModeleSimple.somme_temp_humides, ModeleSimple.score_et_niveau,
    ModeleSimple.score_pluie, ModeleSimple.score_temp, ModeleSimple.score_humidite,
    Champ.getD, Champ.getOpt, Champ.getNum, List.filterMap, Except.map, min_def, max_def,
    pyRound1_zero, pyRound1_ten, pyRound1_neg_ten]

example :
    ModeleSimple.calculer_risque_infection
      [some { precipitation := .val 10, temp_moy := .val 22, humidite := .val 90 }] (-1) 5 =
    .ok (-10, "FAIBLE") := by
  norm_num [ModeleSimple.calculer_risque_infection, ModeleSimple.somme_pluie,
    ModeleSimple.est_humide, ModeleSimple.somme_temp_humides, ModeleSimple.score_et_niveau,
    ModeleSimple.score_pluie, ModeleSimple.score_temp, ModeleSimple.score_humidite,
    Champ.getD, Champ.getOpt, Champ.getNum, List.filterMap, Except.map, min_def, max_def,
    pyRound1_zero, pyRound1_ten, pyRound1_neg_ten]

example :
    ModeleSimple.calculer_risque_infection
      [some { precipitation := .null, temp_moy := .val 20, humidite := .val 80 }] 1 5 =
    .error () := by
  norm_num [ModeleSimple.calculer_risque_infection, ModeleSimple.somme_pluie,
    Champ.getD, List.filterMap, Except.map]

example :
    ModeleOidium.calculer_risque_oidium
      [some { temp_max := .val 24, humidite := .val 70, precipitation := .val 0 }] (3/2) =
    (10, "FORT") := by
  norm_num [ModeleOidium.calculer_risque_oidium, ModeleOidium.daily_score,
    Champ.getD, List.filterMap, Except.map, min_def, max_def, pyRound1_ten]

end Essais

section EssaisIPI

example : ModeleIPI.calculer_ipi (ModeleIPI.meteoTemp 16) 8 = 30 := by
  norm_num [ModeleIPI.calculer_ipi, ModeleIPI.meteoTemp, ModeleIPI.ipi_pour_table,
    ModeleIPI.find_bounding_keys, ModeleIPI.findPair, ModeleIPI.lastD, ModeleIPI.lookupD,
    ModeleIPI.lookupTable, ModeleIPI.IPI_TABLE, ModeleIPI.interpolate, Champ.getOpt,
    ModeleIPI.durees_10, ModeleIPI.durees_13, ModeleIPI.durees_16, ModeleIPI.durees_19,
    ModeleIPI.durees_21, ModeleIPI.durees_24, ModeleIPI.durees_27, max_def]
  exact_mod_cast pyRound_intCast 30

end EssaisIPI

namespace ModeleIPI

theorem fbk_10 (d : ℚ) : find_bounding_keys [6, 9, 12, 15, 18] d =
    if d ≤ 6 then (6, 6)
    else if 18 ≤ d then (18, 18)
    else if d < 9 then (6, 9)
    else if d < 12 then (9, 12)
    else if d < 15 then (12, 15)
    else (15, 18) := by
  simp only [find_bounding_keys, lastD, findPair]
  norm_num
  split_ifs <;>
    first
      | rfl
      | (exfalso
         simp only [not_and_or, not_lt, not_le] at *
         casesm* _ ∨ _, _ ∧ _
         all_goals linarith)

theorem ipt_eq_10 (d : ℚ) : ipi_pour_table durees_10 d = pw_10 d := by
  have e : durees_10.map Prod.fst = [6, 9, 12, 15, 18] := by norm_num [durees_10]
  simp only [ipi_pour_table, pw_10, e, fbk_10]
  rcases le_or_lt d 6 with h1 | h1
  · simp only [if_pos h1]
    norm_num [interpolate, lookupD, durees_10]
  rcases le_or_lt 18 d with h2 | h2
  · simp only [if_neg (by linarith : ¬ (d ≤ 6)), if_pos h2]
    norm_num [interpolate, lookupD, durees_10]
  rcases lt_or_le d 9 with h3 | h3
  · simp only [if_neg (by linarith : ¬ (d ≤ 6)), if_neg (by linarith : ¬ ((18 : ℚ) ≤ d)), if_pos h3]
    norm_num [interpolate, lookupD, durees_10]
  rcases lt_or_le d 12 with h4 | h4
  · simp only [if_neg (by linarith : ¬ (d ≤ 6)), if_neg (by linarith : ¬ ((18 : ℚ) ≤ d)), if_neg (by linarith : ¬ (d < 9)), if_pos h4]
    norm_num [interpolate, lookupD, durees_10]
  rcases lt_or_le d 15 with h5 | h5
  · simp only [if_neg (by linarith : ¬ (d ≤ 6)), if_neg (by linarith : ¬ ((18 : ℚ) ≤ d)), if_neg (by linarith : ¬ (d < 9)), if_neg (by linarith : ¬ (d < 12)), if_pos h5]
    norm_num [interpolate, lookupD, durees_10]
  simp only [if_neg (by linarith : ¬ (d ≤ 6)), if_neg (by linarith : ¬ ((18 : ℚ) ≤ d)), if_neg (by linarith : ¬ (d < 9)), if_neg (by linarith : ¬ (d < 12)), if_neg (by linarith : ¬ (d < 15))]
  norm_num [interpolate, lookupD, durees_10]

set_option maxHeartbeats 2000000 in
theorem ipt_mono_10 {d d' : ℚ} (h : d ≤ d') :
    ipi_pour_table durees_10 d ≤ ipi_pour_table durees_10 d' := by
  rw [ipt_eq_10, ipt_eq_10]
  simp only [pw_10]
  split_ifs <;> norm_num [interpolate] <;> linarith

set_option maxHeartbeats 1000000 in
theorem ipt_le_10 (d : ℚ) : ipi_pour_table durees_10 d ≤ 100 := by
  rw [ipt_eq_10]
  simp only [pw_10]
  split_ifs <;> norm_num [interpolate] <;> linarith

theorem fbk_13 (d : ℚ) : find_bounding_keys [5, 7, 10, 12, 15, 18] d =
    if d ≤ 5 then (5, 5)
    else if 18 ≤ d then (18, 18)
    else if d < 7 then (5, 7)
    else if d < 10 then (7, 10)
    else if d < 12 then (10, 12)
    else if d < 15 then (12, 15)
    else (15, 18) := by
  simp only [find_bounding_keys, lastD, findPair]
  norm_num
  split_ifs <;>
    first
      | rfl
      | (exfalso
         simp only [not_and_or, not_lt, not_le] at *
         casesm* _ ∨ _, _ ∧ _
         all_goals linarith)

theorem ipt_eq_13 (d : ℚ) : ipi_pour_table durees_13 d = pw_13 d := by
  have e : durees_13.map Prod.fst = [5, 7, 10, 12, 15, 18] := by norm_num [durees_13]
  simp only [ipi_pour_table, pw_13, e, fbk_13]
  rcases le_or_lt d 5 with h1 | h1
  · simp only [if_pos h1]
    norm_num [interpolate, lookupD, durees_13]
  rcases le_or_lt 18 d with h2 | h2
  · simp only [if_neg (by linarith : ¬ (d ≤ 5)), if_pos h2]
    norm_num [interpolate, lookupD, durees_13]
  rcases lt_or_le d 7 with h3 | h3
  · simp only [if_neg (by linarith : ¬ (d ≤ 5)), if_neg (by linarith : ¬ ((18 : ℚ) ≤ d)), if_pos h3]
    norm_num [interpolate, lookupD, durees_13]
  rcases lt_or_le d 10 with h4 | h4
  · simp only [if_neg (by linarith : ¬ (d ≤ 5)), if_neg (by linarith : ¬ ((18 : ℚ) ≤ d)), if_neg (by linarith : ¬ (d < 7)), if_pos h4]
    norm_num [interpolate, lookupD, durees_13]
  rcases lt_or_le d 12 with h5 | h5
  · simp only [if_neg (by linarith : ¬ (d ≤ 5)), if_neg (by linarith : ¬ ((18 : ℚ) ≤ d)), if_neg (by linarith : ¬ (d < 7)), if_neg (by linarith : ¬ (d < 10)), if_pos h5]
    norm_num [interpolate, lookupD, durees_13]
  rcases lt_or_le d 15 with h6 | h6
  · simp only [if_neg (by linarith : ¬ (d ≤ 5)), if_neg (by linarith : ¬ ((18 : ℚ) ≤ d)), if_neg (by linarith : ¬ (d < 7)), if_neg (by linarith : ¬ (d < 10)), if_neg (by linarith : ¬ (d < 12)), if_pos h6]
    norm_num [interpolate, lookupD, durees_13]
  simp only [if_neg (by linarith : ¬ (d ≤ 5)), if_neg (by linarith : ¬ ((18 : ℚ) ≤ d)), if_neg (by linarith : ¬ (d < 7)), if_neg (by linarith : ¬ (d < 10)), if_neg (by linarith : ¬ (d < 12)), if_neg (by linarith : ¬ (d < 15))]
  norm_num [interpolate, lookupD, durees_13]

set_option maxHeartbeats 2000000 in
theorem ipt_mono_13 {d d' : ℚ} (h : d ≤ d') :
    ipi_pour_table durees_13 d ≤ ipi_pour_table durees_13 d' := by
  rw [ipt_eq_13, ipt_eq_13]
  simp only [pw_13]
  split_ifs <;> norm_num [interpolate] <;> linarith

set_option maxHeartbeats 1000000 in
theorem ipt_le_13 (d : ℚ) : ipi_pour_table durees_13 d ≤ 100 := by
  rw [ipt_eq_13]
  simp only [pw_13]
  split_ifs <;> norm_num [interpolate] <;> linarith

theorem fbk_16 (d : ℚ) : find_bounding_keys [4, 6, 8, 10, 12, 15] d =
    if d ≤ 4 then (4, 4)
    else if 15 ≤ d then (15, 15)
    else if d < 6 then (4, 6)
    else if d < 8 then (6, 8)
    else if d < 10 then (8, 10)
    else if d < 12 then (10, 12)
    else (12, 15) := by
  simp only [find_bounding_keys, lastD, findPair]
  norm_num
  split_ifs <;>
    first
      | rfl
      | (exfalso
         simp only [not_and_or, not_lt, not_le] at *
         casesm* _ ∨ _, _ ∧ _
         all_goals linarith)

theorem ipt_eq_16 (d : ℚ) : ipi_pour_table durees_16 d = pw_16 d := by
  have e : durees_16.map Prod.fst = [4, 6, 8, 10, 12, 15] := by norm_num [durees_16]
  simp only [ipi_pour_table, pw_16, e, fbk_16]
  rcases le_or_lt d 4 with h1 | h1
  · simp only [if_pos h1]
    norm_num [interpolate, lookupD, durees_16]
  rcases le_or_lt 15 d with h2 | h2
  · simp only [if_neg (by linarith : ¬ (d ≤ 4)), if_pos h2]
    norm_num [interpolate, lookupD, durees_16]
  rcases lt_or_le d 6 with h3 | h3
  · simp only [if_neg (by linarith : ¬ (d ≤ 4)), if_neg (by linarith : ¬ ((15 : ℚ) ≤ d)), if_pos h3]
    norm_num [interpolate, lookupD, durees_16]
  rcases lt_or_le d 8 with h4 | h4
  · simp only [if_neg (by linarith : ¬ (d ≤ 4)), if_neg (by linarith : ¬ ((15 : ℚ) ≤ d)), if_neg (by linarith : ¬ (d < 6)), if_pos h4]
    norm_num [interpolate, lookupD, durees_16]
  rcases lt_or_le d 10 with h5 | h5
  · simp only [if_neg (by linarith : ¬ (d ≤ 4)), if_neg (by linarith : ¬ ((15 : ℚ) ≤ d)), if_neg (by linarith : ¬ (d < 6)), if_neg (by linarith : ¬ (d < 8)), if_pos h5]
    norm_num [interpolate, lookupD, durees_16]
  rcases lt_or_le d 12 with h6 | h6
  · simp only [if_neg (by linarith : ¬ (d ≤ 4)), if_neg (by linarith : ¬ ((15 : ℚ) ≤ d)), if_neg (by linarith : ¬ (d < 6)), if_neg (by linarith : ¬ (d < 8)), if_neg (by linarith : ¬ (d < 10)), if_pos h6]
    norm_num [interpolate, lookupD, durees_16]
  simp only [if_neg (by linarith : ¬ (d ≤ 4)), if_neg (by linarith : ¬ ((15 : ℚ) ≤ d)), if_neg (by linarith : ¬ (d < 6)), if_neg (by linarith : ¬ (d < 8)), if_neg (by linarith : ¬ (d < 10)), if_neg (by linarith : ¬ (d < 12))]
  norm_num [interpolate, lookupD, durees_16]

set_option maxHeartbeats 2000000 in
theorem ipt_mono_16 {d d' : ℚ} (h : d ≤ d') :
    ipi_pour_table durees_16 d ≤ ipi_pour_table durees_16 d' := by
  rw [ipt_eq_16, ipt_eq_16]
  simp only [pw_16]
  split_ifs <;> norm_num [interpolate] <;> linarith

set_option maxHeartbeats 1000000 in
theorem ipt_le_16 (d : ℚ) : ipi_pour_table durees_16 d ≤ 100 := by
  rw [ipt_eq_16]
  simp only [pw_16]
  split_ifs <;> norm_num [interpolate] <;> linarith

theorem fbk_19 (d : ℚ) : find_bounding_keys [3, 5, 7, 9, 11, 13] d =
    if d ≤ 3 then (3, 3)
    else if 13 ≤ d then (13, 13)
    else if d < 5 then (3, 5)
    else if d < 7 then (5, 7)
    else if d < 9 then (7, 9)
    else if d < 11 then (9, 11)
    else (11, 13) := by
  simp only [find_bounding_keys, lastD, findPair]
  norm_num
  split_ifs <;>
    first
      | rfl
      | (exfalso
         simp only [not_and_or, not_lt, not_le] at *
         casesm* _ ∨ _, _ ∧ _
         all_goals linarith)

theorem ipt_eq_19 (d : ℚ) : ipi_pour_table durees_19 d = pw_19 d := by
  have e : durees_19.map Prod.fst = [3, 5, 7, 9, 11, 13] := by norm_num [durees_19]
  simp only [ipi_pour_table, pw_19, e, fbk_19]
  rcases le_or_lt d 3 with h1 | h1
  · simp only [if_pos h1]
    norm_num [interpolate, lookupD, durees_19]
  rcases le_or_lt 13 d with h2 | h2
  · simp only [if_neg (by linarith : ¬ (d ≤ 3)), if_pos h2]
    norm_num [interpolate, lookupD, durees_19]
  rcases lt_or_le d 5 with h3 | h3
  · simp only [if_neg (by linarith : ¬ (d ≤ 3)), if_neg (by linarith : ¬ ((13 : ℚ) ≤ d)), if_pos h3]
    norm_num [interpolate, lookupD, durees_19]
  rcases lt_or_le d 7 with h4 | h4
  · simp only [if_neg (by linarith : ¬ (d ≤ 3)), if_neg (by linarith : ¬ ((13 : ℚ) ≤ d)), if_neg (by linarith : ¬ (d < 5)), if_pos h4]
    norm_num [interpolate, lookupD, durees_19]
  rcases lt_or_le d 9 with h5 | h5
  · simp only [if_neg (by linarith : ¬ (d ≤ 3)), if_neg (by linarith : ¬ ((13 : ℚ) ≤ d)), if_neg (by linarith : ¬ (d < 5)), if_neg (by linarith : ¬ (d < 7)), if_pos h5]
    norm_num [interpolate, lookupD, durees_19]
  rcases lt_or_le d 11 with h6 | h6
  · simp only [if_neg (by linarith : ¬ (d ≤ 3)), if_neg (by linarith : ¬ ((13 : ℚ) ≤ d)), if_neg (by linarith : ¬ (d < 5)), if_neg (by linarith : ¬ (d < 7)), if_neg (by linarith : ¬ (d < 9)), if_pos h6]
    norm_num [interpolate, lookupD, durees_19]
  simp only [if_neg (by linarith : ¬ (d ≤ 3)), if_neg (by linarith : ¬ ((13 : ℚ) ≤ d)), if_neg (by linarith : ¬ (d < 5)), if_neg (by linarith : ¬ (d < 7)), if_neg (by linarith : ¬ (d < 9)), if_neg (by linarith : ¬ (d < 11))]
  norm_num [interpolate, lookupD, durees_19]

set_option maxHeartbeats 2000000 in
theorem ipt_mono_19 {d d' : ℚ} (h : d ≤ d') :
    ipi_pour_table durees_19 d ≤ ipi_pour_table durees_19 d' := by
  rw [ipt_eq_19, ipt_eq_19]
  simp only [pw_19]
  split_ifs <;> norm_num [interpolate] <;> linarith

set_option maxHeartbeats 1000000 in
theorem ipt_le_19 (d : ℚ) : ipi_pour_table durees_19 d ≤ 100 := by
  rw [ipt_eq_19]
  simp only [pw_19]
  split_ifs <;> norm_num [interpolate] <;> linarith

theorem fbk_21 (d : ℚ) : find_bounding_keys [3, 4, 6, 8, 10] d =
    if d ≤ 3 then (3, 3)
    else if 10 ≤ d then (10, 10)
    else if d < 4 then (3, 4)
    else if d < 6 then (4, 6)
    else if d < 8 then (6, 8)
    else (8, 10) := by
  simp only [find_bounding_keys, lastD, findPair]
  norm_num
  split_ifs <;>
    first
      | rfl
      | (exfalso
         simp only [not_and_or, not_lt, not_le] at *
         casesm* _ ∨ _, _ ∧ _
         all_goals linarith)

theorem ipt_eq_21 (d : ℚ) : ipi_pour_table durees_21 d = pw_21 d := by
  have e : durees_21.map Prod.fst = [3, 4, 6, 8, 10] := by norm_num [durees_21]
  simp only [ipi_pour_table, pw_21, e, fbk_21]
  rcases le_or_lt d 3 with h1 | h1
  · simp only [if_pos h1]
    norm_num [interpolate, lookupD, durees_21]
  rcases le_or_lt 10 d with h2 | h2
  · simp only [if_neg (by linarith : ¬ (d ≤ 3)), if_pos h2]
    norm_num [interpolate, lookupD, durees_21]
  rcases lt_or_le d 4 with h3 | h3
  · simp only [if_neg (by linarith : ¬ (d ≤ 3)), if_neg (by linarith : ¬ ((10 : ℚ) ≤ d)), if_pos h3]
    norm_num [interpolate, lookupD, durees_21]
  rcases lt_or_le d 6 with h4 | h4
  · simp only [if_neg (by linarith : ¬ (d ≤ 3)), if_neg (by linarith : ¬ ((10 : ℚ) ≤ d)), if_neg (by linarith : ¬ (d < 4)), if_pos h4]
    norm_num [interpolate, lookupD, durees_21]
  rcases lt_or_le d 8 with h5 | h5
  · simp only [if_neg (by linarith : ¬ (d ≤ 3)), if_neg (by linarith : ¬ ((10 : ℚ) ≤ d)), if_neg (by linarith : ¬ (d < 4)), if_neg (by linarith : ¬ (d < 6)), if_pos h5]
    norm_num [interpolate, lookupD, durees_21]
  simp only [if_neg (by linarith : ¬ (d ≤ 3)), if_neg (by linarith : ¬ ((10 : ℚ) ≤ d)), if_neg (by linarith : ¬ (d < 4)), if_neg (by linarith : ¬ (d < 6)), if_neg (by linarith : ¬ (d < 8))]
  norm_num [interpolate, lookupD, durees_21]

set_option maxHeartbeats 2000000 in
theorem ipt_mono_21 {d d' : ℚ} (h : d ≤ d') :
    ipi_pour_table durees_21 d ≤ ipi_pour_table durees_21 d' := by
  rw [ipt_eq_21, ipt_eq_21]
  simp only [pw_21]
  split_ifs <;> norm_num [interpolate] <;> linarith

set_option maxHeartbeats 1000000 in
theorem ipt_le_21 (d : ℚ) : ipi_pour_table durees_21 d ≤ 100 := by
  rw [ipt_eq_21]
  simp only [pw_21]
  split_ifs <;> norm_num [interpolate] <;> linarith

theorem fbk_24 (d : ℚ) : find_bounding_keys [3, 4, 6, 8] d =
    if d ≤ 3 then (3, 3)
    else if 8 ≤ d then (8, 8)
    else if d < 4 then (3, 4)
    else if d < 6 then (4, 6)
    else (6, 8) := by
  simp only [find_bounding_keys, lastD, findPair]
  norm_num
  split_ifs <;>
    first
      | rfl
      | (exfalso
         simp only [not_and_or, not_lt, not_le] at *
         casesm* _ ∨ _, _ ∧ _
         all_goals linarith)

theorem ipt_eq_24 (d : ℚ) : ipi_pour_table durees_24 d = pw_24 d := by
  have e : durees_24.map Prod.fst = [3, 4, 6, 8] := by norm_num [durees_24]
  simp only [ipi_pour_table, pw_24, e, fbk_24]
  rcases le_or_lt d 3 with h1 | h1
  · simp only [if_pos h1]
    norm_num [interpolate, lookupD, durees_24]
  rcases le_or_lt 8 d with h2 | h2
  · simp only [if_neg (by linarith : ¬ (d ≤ 3)), if_pos h2]
    norm_num [interpolate, lookupD, durees_24]
  rcases lt_or_le d 4 with h3 | h3
  · simp only [if_neg (by linarith : ¬ (d ≤ 3)), if_neg (by linarith : ¬ ((8 : ℚ) ≤ d)), if_pos h3]
    norm_num [interpolate, lookupD, durees_24]
  rcases lt_or_le d 6 with h4 | h4
  · simp only [if_neg (by linarith : ¬ (d ≤ 3)), if_neg (by linarith : ¬ ((8 : ℚ) ≤ d)), if_neg (by linarith : ¬ (d < 4)), if_pos h4]
    norm_num [interpolate, lookupD, durees_24]
  simp only [if_neg (by linarith : ¬ (d ≤ 3)), if_neg (by linarith : ¬ ((8 : ℚ) ≤ d)), if_neg (by linarith : ¬ (d < 4)), if_neg (by linarith : ¬ (d < 6))]
  norm_num [interpolate, lookupD, durees_24]

set_option maxHeartbeats 2000000 in
theorem ipt_mono_24 {d d' : ℚ} (h : d ≤ d') :
    ipi_pour_table durees_24 d ≤ ipi_pour_table durees_24 d' := by
  rw [ipt_eq_24, ipt_eq_24]
  simp only [pw_24]
  split_ifs <;> norm_num [interpolate] <;> linarith

set_option maxHeartbeats 1000000 in
theorem ipt_le_24 (d : ℚ) : ipi_pour_table durees_24 d ≤ 100 := by
  rw [ipt_eq_24]
  simp only [pw_24]
  split_ifs <;> norm_num [interpolate] <;> linarith

theorem fbk_27 (d : ℚ) : find_bounding_keys [3, 5, 7] d =
    if d ≤ 3 then (3, 3)
    else if 7 ≤ d then (7, 7)
    else if d < 5 then (3, 5)
    else (5, 7) := by
  simp only [find_bounding_keys, lastD, findPair]
  norm_num
  split_ifs <;>
    first
      | rfl
      | (exfalso
         simp only [not_and_or, not_lt, not_le] at *
         casesm* _ ∨ _, _ ∧ _
         all_goals linarith)

theorem ipt_eq_27 (d : ℚ) : ipi_pour_table durees_27 d = pw_27 d := by
  have e : durees_27.map Prod.fst = [3, 5, 7] := by norm_num [durees_27]
  simp only [ipi_pour_table, pw_27, e, fbk_27]
  rcases le_or_lt d 3 with h1 | h1
  · simp only [if_pos h1]
    norm_num [interpolate, lookupD, durees_27]
  rcases le_or_lt 7 d with h2 | h2
  · simp only [if_neg (by linarith : ¬ (d ≤ 3)), if_pos h2]
    norm_num [interpolate, lookupD, durees_27]
  rcases lt_or_le d 5 with h3 | h3
  · simp only [if_neg (by linarith : ¬ (d ≤ 3)), if_neg (by linarith : ¬ ((7 : ℚ) ≤ d)), if_pos h3]
    norm_num [interpolate, lookupD, durees_27]
  simp only [if_neg (by linarith : ¬ (d ≤ 3)), if_neg (by linarith : ¬ ((7 : ℚ) ≤ d)), if_neg (by linarith : ¬ (d < 5))]
  norm_num [interpolate, lookupD, durees_27]

set_option maxHeartbeats 2000000 in
theorem ipt_mono_27 {d d' : ℚ} (h : d ≤ d') :
    ipi_pour_table durees_27 d ≤ ipi_pour_table durees_27 d' := by
  rw [ipt_eq_27, ipt_eq_27]
  simp only [pw_27]
  split_ifs <;> norm_num [interpolate] <;> linarith

set_option maxHeartbeats 1000000 in
theorem ipt_le_27 (d : ℚ) : ipi_pour_table durees_27 d ≤ 100 := by
  rw [ipt_eq_27]
  simp only [pw_27]
  split_ifs <;> norm_num [interpolate] <;> linarith

set_option maxHeartbeats 2000000 in
theorem fbk_temps (d : ℚ) : find_bounding_keys [10, 13, 16, 19, 21, 24, 27] d =
    if d ≤ 10 then (10, 10)
    else if 27 ≤ d then (27, 27)
    else if d < 13 then (10, 13)
    else if d < 16 then (13, 16)
    else if d < 19 then (16, 19)
    else if d < 21 then (19, 21)
    else if d < 24 then (21, 24)
    else (24, 27) := by
  simp only [find_bounding_keys, lastD, findPair]
  norm_num
  split_ifs <;>
    first
      | rfl
      | (exfalso
         simp only [not_and_or, not_lt, not_le] at *
         casesm* _ ∨ _, _ ∧ _
         all_goals linarith)

end ModeleIPI

namespace ModeleIPI

theorem interpolate_mono_y {x x0 x1 y0 y1 y0' y1' : ℚ} (h01 : x0 < x1)
    (hx0 : x0 ≤ x) (hx1 : x ≤ x1) (hy0 : y0 ≤ y0') (hy1 : y1 ≤ y1') :
    interpolate x x0 y0 x1 y1 ≤ interpolate x x0 y0' x1 y1' := by
  unfold interpolate
  rw [if_neg (by linarith : ¬ (x1 = x0)), if_neg (by linarith : ¬ (x1 = x0))]
  have hd : 0 < x1 - x0 := by linarith
  have hc0 : 0 ≤ (x - x0) / (x1 - x0) := div_nonneg (by linarith) hd.le
  have hc1 : (x - x0) / (x1 - x0) ≤ 1 := (div_le_one hd).mpr (by linarith)
  have e1 : y0 + (x - x0) * (y1 - y0) / (x1 - x0)
      = (1 - (x - x0) / (x1 - x0)) * y0 + ((x - x0) / (x1 - x0)) * y1 := by
    field_simp
    ring
  have e2 : y0' + (x - x0) * (y1' - y0') / (x1 - x0)
      = (1 - (x - x0) / (x1 - x0)) * y0' + ((x - x0) / (x1 - x0)) * y1' := by
    field_simp
    ring
  rw [e1, e2]
  have m1 := mul_le_mul_of_nonneg_left hy0
    (by linarith : (0 : ℚ) ≤ 1 - (x - x0) / (x1 - x0))
  have m2 := mul_le_mul_of_nonneg_left hy1 hc0
  linarith

theorem interpolate_le {x x0 x1 y0 y1 B : ℚ} (h01 : x0 < x1)
    (hx0 : x0 ≤ x) (hx1 : x ≤ x1) (hy0 : y0 ≤ B) (hy1 : y1 ≤ B) :
    interpolate x x0 y0 x1 y1 ≤ B := by
  unfold interpolate
  rw [if_neg (by linarith : ¬ (x1 = x0))]
  have hd : 0 < x1 - x0 := by linarith
  have hc0 : 0 ≤ (x - x0) / (x1 - x0) := div_nonneg (by linarith) hd.le
  have hc1 : (x - x0) / (x1 - x0) ≤ 1 := (div_le_one hd).mpr (by linarith)
  have e1 : y0 + (x - x0) * (y1 - y0) / (x1 - x0)
      = (1 - (x - x0) / (x1 - x0)) * y0 + ((x - x0) / (x1 - x0)) * y1 := by
    field_simp
    ring
  rw [e1]
  have m1 := mul_le_mul_of_nonneg_left hy0
    (by linarith : (0 : ℚ) ≤ 1 - (x - x0) / (x1 - x0))
  have m2 := mul_le_mul_of_nonneg_left hy1 hc0
  nlinarith

set_option maxHeartbeats 4000000 in
/-- For a fixed in-range temperature, `calculer_ipi` is monotone
non-decreasing in the estimated wetness duration. -/
theorem ipi_mono_duree {temp d1 d2 : ℚ} (h10 : 10 ≤ temp) (h27 : temp ≤ 27)
    (h : d1 ≤ d2) :
    calculer_ipi (meteoTemp temp) d1 ≤ calculer_ipi (meteoTemp temp) d2 := by
  have h0 : ¬ (temp < 10 ∨ temp > 27) := by push_neg; constructor <;> linarith
  simp only [calculer_ipi, meteoTemp, Champ.getOpt]
  simp only [if_neg h0]
  have e : IPI_TABLE.map Prod.fst = [10, 13, 16, 19, 21, 24, 27] := by
    norm_num [IPI_TABLE]
  rw [e, fbk_temps]
  rcases le_or_lt temp 10 with t1 | t1
  · simp only [if_pos t1]
    norm_num [lookupTable, IPI_TABLE]
    exact pyRound_mono (max_le_max le_rfl (ipt_mono_10 h))
  rcases le_or_lt 27 temp with t2 | t2
  · simp only [if_neg (by linarith : ¬ (temp ≤ 10)), if_pos t2]
    norm_num [lookupTable, IPI_TABLE]
    exact pyRound_mono (max_le_max le_rfl (ipt_mono_27 h))
  rcases lt_or_le temp 13 with t3 | t3
  · simp only [if_neg (by linarith : ¬ (temp ≤ 10)),
      if_neg (by linarith : ¬ ((27 : ℚ) ≤ temp)), if_pos t3]
    norm_num [lookupTable, IPI_TABLE]
    exact pyRound_mono (max_le_max le_rfl (interpolate_mono_y
      (show (10 : ℚ) < 13 by norm_num) (show (10 : ℚ) ≤ temp by linarith)
      (show temp ≤ (13 : ℚ) by linarith) (ipt_mono_10 h) (ipt_mono_13 h)))
  rcases lt_or_le temp 16 with t4 | t4
  · simp only [if_neg (by linarith : ¬ (temp ≤ 10)),
      if_neg (by linarith : ¬ ((27 : ℚ) ≤ temp)),
      if_neg (by linarith : ¬ (temp < 13)), if_pos t4]
    norm_num [lookupTable, IPI_TABLE]
    exact pyRound_mono (max_le_max le_rfl (interpolate_mono_y
      (show (13 : ℚ) < 16 by norm_num) (show (13 : ℚ) ≤ temp by linarith)
      (show temp ≤ (16 : ℚ) by linarith) (ipt_mono_13 h) (ipt_mono_16 h)))
  rcases lt_or_le temp 19 with t5 | t5
  · simp only [if_neg (by linarith : ¬ (temp ≤ 10)),
      if_neg (by linarith : ¬ ((27 : ℚ) ≤ temp)),
      if_neg (by linarith : ¬ (temp < 13)), if_neg (by linarith : ¬ (temp < 16)),
      if_pos t5]
    norm_num [lookupTable, IPI_TABLE]
    exact pyRound_mono (max_le_max le_rfl (interpolate_mono_y
      (show (16 : ℚ) < 19 by norm_num) (show (16 : ℚ) ≤ temp by linarith)
      (show temp ≤ (19 : ℚ) by linarith) (ipt_mono_16 h) (ipt_mono_19 h)))
  rcases lt_or_le temp 21 with t6 | t6
  · simp only [if_neg (by linarith : ¬ (temp ≤ 10)),
      if_neg (by linarith : ¬ ((27 : ℚ) ≤ temp)),
      if_neg (by linarith : ¬ (temp < 13)), if_neg (by linarith : ¬ (temp < 16)),
      if_neg (by linarith : ¬ (temp < 19)), if_pos t6]
    norm_num [lookupTable, IPI_TABLE]
    exact pyRound_mono (max_le_max le_rfl (interpolate_mono_y
      (show (19 : ℚ) < 21 by norm_num) (show (19 : ℚ) ≤ temp by linarith)
      (show temp ≤ (21 : ℚ) by linarith) (ipt_mono_19 h) (ipt_mono_21 h)))
  rcases lt_or_le temp 24 with t7 | t7
  · simp only [if_neg (by linarith : ¬ (temp ≤ 10)),
      if_neg (by linarith : ¬ ((27 : ℚ) ≤ temp)),
      if_neg (by linarith : ¬ (temp < 13)), if_neg (by linarith : ¬ (temp < 16)),
      if_neg (by linarith : ¬ (temp < 19)), if_neg (by linarith : ¬ (temp < 21)),
      if_pos t7]
    norm_num [lookupTable, IPI_TABLE]
    exact pyRound_mono (max_le_max le_rfl (interpolate_mono_y
      (show (21 : ℚ) < 24 by norm_num) (show (21 : ℚ) ≤ temp by linarith)
      (show temp ≤ (24 : ℚ) by linarith) (ipt_mono_21 h) (ipt_mono_24 h)))
  simp only [if_neg (by linarith : ¬ (temp ≤ 10)),
    if_neg (by linarith : ¬ ((27 : ℚ) ≤ temp)),
    if_neg (by linarith : ¬ (temp < 13)), if_neg (by linarith : ¬ (temp < 16)),
    if_neg (by linarith : ¬ (temp < 19)), if_neg (by linarith : ¬ (temp < 21)),
    if_neg (by linarith : ¬ (temp < 24))]
  norm_num [lookupTable, IPI_TABLE]
  exact pyRound_mono (max_le_max le_rfl (interpolate_mono_y
    (show (24 : ℚ) < 27 by norm_num) (show (24 : ℚ) ≤ temp by linarith)
    (show temp ≤ (27 : ℚ) by linarith) (ipt_mono_24 h) (ipt_mono_27 h)))

end ModeleIPI

namespace ModeleIPI

theorem pyRound_max_zero_nonneg (X : ℚ) : (0 : ℤ) ≤ pyRound (max 0 X) :=
  int_le_pyRound (by push_cast; exact le_max_left 0 X)

theorem pyRound_max_le_100 {X : ℚ} (hX : X ≤ 100) : pyRound (max 0 X) ≤ 100 :=
  pyRound_le_int (by push_cast; exact max_le (by norm_num) hX)

theorem int_nonneg_ite_pyRound {c : Prop} [Decidable c] (A B : ℚ) :
    (0 : ℤ) ≤ if c then pyRound (max 0 A) else pyRound (max 0 B) := by
  split
  · exact pyRound_max_zero_nonneg A
  · exact pyRound_max_zero_nonneg B

set_option maxHeartbeats 4000000 in
/-- `calculer_ipi` always returns a value in `[0, 100]`. -/
theorem ipi_borne (w : WeatherDay) (d : ℚ) :
    0 ≤ calculer_ipi w d ∧ calculer_ipi w d ≤ 100 := by
  rcases hw : w.temp_moy.getOpt with _ | temp
  · simp only [calculer_ipi, hw]
    norm_num
  · simp only [calculer_ipi, hw]
    by_cases hr : temp < 10 ∨ temp > 27
    · simp only [if_pos hr]
      norm_num
    · simp only [if_neg hr]
      push_neg at hr
      obtain ⟨h10, h27⟩ := hr
      have e : IPI_TABLE.map Prod.fst = [10, 13, 16, 19, 21, 24, 27] := by
        norm_num [IPI_TABLE]
      rw [e, fbk_temps]
      constructor
      · exact int_nonneg_ite_pyRound _ _
      · rcases le_or_lt temp 10 with t1 | t1
        · simp only [if_pos t1]
          norm_num [lookupTable, IPI_TABLE]
          exact pyRound_max_le_100 (ipt_le_10 d)
        rcases le_or_lt 27 temp with t2 | t2
        · simp only [if_neg (by linarith : ¬ (temp ≤ 10)), if_pos t2]
          norm_num [lookupTable, IPI_TABLE]
          exact pyRound_max_le_100 (ipt_le_27 d)
        rcases lt_or_le temp 13 with t3 | t3
        · simp only [if_neg (by linarith : ¬ (temp ≤ 10)),
            if_neg (by linarith : ¬ ((27 : ℚ) ≤ temp)), if_pos t3]
          norm_num [lookupTable, IPI_TABLE]
          exact pyRound_max_le_100
            (interpolate_le (show (10 : ℚ) < 13 by norm_num)
              (show (10 : ℚ) ≤ temp by linarith) (show temp ≤ (13 : ℚ) by linarith)
              (ipt_le_10 d) (ipt_le_13 d))
        rcases lt_or_le temp 16 with t4 | t4
        · simp only [if_neg (by linarith : ¬ (temp ≤ 10)),
            if_neg (by linarith : ¬ ((27 : ℚ) ≤ temp)),
            if_neg (by linarith : ¬ (temp < 13)), if_pos t4]
          norm_num [lookupTable, IPI_TABLE]
          exact pyRound_max_le_100
            (interpolate_le (show (13 : ℚ) < 16 by norm_num)
              (show (13 : ℚ) ≤ temp by linarith) (show temp ≤ (16 : ℚ) by linarith)
              (ipt_le_13 d) (ipt_le_16 d))
        rcases lt_or_le temp 19 with t5 | t5
        · simp only [if_neg (by linarith : ¬ (temp ≤ 10)),
            if_neg (by linarith : ¬ ((27 : ℚ) ≤ temp)),
            if_neg (by linarith : ¬ (temp < 13)), if_neg (by linarith : ¬ (temp < 16)),
            if_pos t5]
          norm_num [lookupTable, IPI_TABLE]
          exact pyRound_max_le_100
            (interpolate_le (show (16 : ℚ) < 19 by norm_num)
              (show (16 : ℚ) ≤ temp by linarith) (show temp ≤ (19 : ℚ) by linarith)
              (ipt_le_16 d) (ipt_le_19 d))
        rcases lt_or_le temp 21 with t6 | t6
        · simp only [if_neg (by linarith : ¬ (temp ≤ 10)),
            if_neg (by linarith : ¬ ((27 : ℚ) ≤ temp)),
            if_neg (by linarith : ¬ (temp < 13)), if_neg (by linarith : ¬ (temp < 16)),
            if_neg (by linarith : ¬ (temp < 19)), if_pos t6]
          norm_num [lookupTable, IPI_TABLE]
          exact pyRound_max_le_100
            (interpolate_le (show (19 : ℚ) < 21 by norm_num)
              (show (19 : ℚ) ≤ temp by linarith) (show temp ≤ (21 : ℚ) by linarith)
              (ipt_le_19 d) (ipt_le_21 d))
        rcases lt_or_le temp 24 with t7 | t7
        · simp only [if_neg (by linarith : ¬ (temp ≤ 10)),
            if_neg (by linarith : ¬ ((27 : ℚ) ≤ temp)),
            if_neg (by linarith : ¬ (temp < 13)), if_neg (by linarith : ¬ (temp < 16)),
            if_neg (by linarith : ¬ (temp < 19)), if_neg (by linarith : ¬ (temp < 21)),
            if_pos t7]
          norm_num [lookupTable, IPI_TABLE]
          exact pyRound_max_le_100
            (interpolate_le (show (21 : ℚ) < 24 by norm_num)
              (show (21 : ℚ) ≤ temp by linarith) (show temp ≤ (24 : ℚ) by linarith)
              (ipt_le_21 d) (ipt_le_24 d))
        simp only [if_neg (by linarith : ¬ (temp ≤ 10)),
          if_neg (by linarith : ¬ ((27 : ℚ) ≤ temp)),
          if_neg (by linarith : ¬ (temp < 13)), if_neg (by linarith : ¬ (temp < 16)),
          if_neg (by linarith : ¬ (temp < 19)), if_neg (by linarith : ¬ (temp < 21)),
          if_neg (by linarith : ¬ (temp < 24))]
        norm_num [lookupTable, IPI_TABLE]
        exact pyRound_max_le_100
          (interpolate_le (show (24 : ℚ) < 27 by norm_num)
            (show (24 : ℚ) ≤ temp by linarith) (show temp ≤ (27 : ℚ) by linarith)
            (ipt_le_24 d) (ipt_le_27 d))

end ModeleIPI

namespace ModeleIPI

set_option maxHeartbeats 4000000 in
/-- At every exact (temperature-key, duration-key) pair of the table,
`calculer_ipi` returns exactly the stored severity. -/
theorem ipi_noeuds :
    ∀ p ∈ IPI_TABLE, ∀ q ∈ p.2,
      ((calculer_ipi (meteoTemp p.1) q.1 : ℤ) : ℚ) = q.2 := by
  intro p hp q hq
  fin_cases hp <;> fin_cases hq <;>
    (norm_num [calculer_ipi, meteoTemp, ipi_pour_table, find_bounding_keys, findPair,
       lastD, lookupD, lookupTable, IPI_TABLE, interpolate, Champ.getOpt,
       durees_10, durees_13, durees_16, durees_19, durees_21, durees_24, durees_27,
       max_def]
     exact_mod_cast pyRound_intCast _)

end ModeleIPI

theorem ipi_16_8 : ModeleIPI.calculer_ipi (ModeleIPI.meteoTemp 16) 8 = 30 := by
  have h := ModeleIPI.ipi_noeuds (16, ModeleIPI.durees_16)
    (by simp [ModeleIPI.IPI_TABLE]) (8, 30) (by simp [ModeleIPI.durees_16])
  simp only at h
  exact_mod_cast h

/-- C3: for a fixed temperature within the table bounds `[10, 27]`,
`ModeleIPI.calculer_ipi` is monotone non-decreasing in the wetness duration;
at every exact (temperature-key, duration-key) pair of `IPI_TABLE` it returns
exactly the table entry; in particular at temperature 16 and duration 8 it
returns 30. -/
theorem claim_C3 :
    (∀ temp d1 d2 : ℚ, 10 ≤ temp → temp ≤ 27 → d1 ≤ d2 →
        ModeleIPI.calculer_ipi (ModeleIPI.meteoTemp temp) d1 ≤
          ModeleIPI.calculer_ipi (ModeleIPI.meteoTemp temp) d2)
  ∧ (∀ p ∈ ModeleIPI.IPI_TABLE, ∀ q ∈ p.2,
      ((ModeleIPI.calculer_ipi (ModeleIPI.meteoTemp p.1) q.1 : ℤ) : ℚ) = q.2)
  ∧ ModeleIPI.calculer_ipi (ModeleIPI.meteoTemp 16) 8 = 30 :=
  ⟨fun _ _ _ h1 h2 h3 => ModeleIPI.ipi_mono_duree h1 h2 h3, ModeleIPI.ipi_noeuds, ipi_16_8⟩

/-- Witness for C3 at the concrete point of the claim. -/
theorem claim_C3_witness :
    ((10 : ℚ) ≤ 16 ∧ (16 : ℚ) ≤ 27 ∧ (8 : ℚ) ≤ 10 ∧
      ModeleIPI.calculer_ipi (ModeleIPI.meteoTemp 16) 8 ≤
        ModeleIPI.calculer_ipi (ModeleIPI.meteoTemp 16) 10)
  ∧ ((16, ModeleIPI.durees_16) ∈ ModeleIPI.IPI_TABLE ∧
      ((8 : ℚ), (30 : ℚ)) ∈ ModeleIPI.durees_16 ∧
      ((ModeleIPI.calculer_ipi (ModeleIPI.meteoTemp (16, ModeleIPI.durees_16).1)
          ((8 : ℚ), (30 : ℚ)).1 : ℤ) : ℚ) = ((8 : ℚ), (30 : ℚ)).2) :=
  ⟨⟨by norm_num, by norm_num, by norm_num,
    claim_C3.1 16 8 10 (by norm_num) (by norm_num) (by norm_num)⟩,
   ⟨by simp [ModeleIPI.IPI_TABLE], by simp [ModeleIPI.durees_16],
    claim_C3.2.1 (16, ModeleIPI.durees_16) (by simp [ModeleIPI.IPI_TABLE])
      ((8 : ℚ), (30 : ℚ)) (by simp [ModeleIPI.durees_16])⟩⟩

namespace ModeleSimple

theorem score_pluie_nonneg (p : ℚ) : 0 ≤ score_pluie p := by
  unfold score_pluie; split_ifs <;> norm_num

theorem score_temp_nonneg (t : ℚ) : 0 ≤ score_temp t := by
  unfold score_temp; split_ifs <;> norm_num

theorem score_humidite_nonneg (h : ℚ) : 0 ≤ score_humidite h := by
  unfold score_humidite; split_ifs <;> norm_num

/-- With non-negative stage coefficient and sensitivity, the final score of
the simple model is clamped to `[0, 10]`. -/
theorem score_et_niveau_borne (p t h coef sens : ℚ) (hc : 0 ≤ coef) (hs : 0 ≤ sens) :
    0 ≤ (score_et_niveau p t h coef sens).1 ∧ (score_et_niveau p t h coef sens).1 ≤ 10 := by
  unfold score_et_niveau
  constructor
  · apply pyRound1_nonneg
    refine le_min (by norm_num) ?_
    have hb : 0 ≤ score_pluie p + score_temp t + score_humidite h :=
      add_nonneg (add_nonneg (score_pluie_nonneg p) (score_temp_nonneg t))
        (score_humidite_nonneg h)
    have h5 : (0 : ℚ) ≤ sens / 5 := by linarith
    exact mul_nonneg (mul_nonneg hb hc) h5
  · exact pyRound1_le_ten (min_le_left _ _)

/-- Whenever the simple model returns a score (rather than raising),
the score lies in `[0, 10]`, provided coefficient and sensitivity are
non-negative. -/
theorem risque_simple_borne {meteo_48h : List (Option WeatherDay)}
    {stade_coef sensibilite_cepage s : ℚ} {niveau : String}
    (hc : 0 ≤ stade_coef) (hs : 0 ≤ sensibilite_cepage)
    (hres : calculer_risque_infection meteo_48h stade_coef sensibilite_cepage =
      .ok (s, niveau)) :
    0 ≤ s ∧ s ≤ 10 := by
  simp only [calculer_risque_infection] at hres
  split at hres
  · simp only [Except.ok.injEq, Prod.mk.injEq] at hres
    obtain ⟨h1, -⟩ := hres
    subst h1
    norm_num
  · split at hres
    · simp at hres
    · split at hres
      · simp only [Except.ok.injEq, Prod.mk.injEq] at hres
        obtain ⟨h1, -⟩ := hres
        subst h1
        norm_num
      · split at hres
        · simp at hres
        · split at hres
          · simp only [Except.ok.injEq, Prod.mk.injEq] at hres
            obtain ⟨h1, -⟩ := hres
            subst h1
            norm_num
          · simp only [Except.ok.injEq] at hres
            have hfst := congrArg Prod.fst hres
            simp only at hfst
            rw [← hfst]
            exact score_et_niveau_borne _ _ _ _ _ hc hs

end ModeleSimple

namespace ModeleOidium

/-- The powdery-mildew score is clamped to `[0, 10]` for every input. -/
theorem risque_oidium_borne (meteo_7j : List (Option WeatherDay)) (stade_coef : ℚ) :
    0 ≤ (calculer_risque_oidium meteo_7j stade_coef).1 ∧
    (calculer_risque_oidium meteo_7j stade_coef).1 ≤ 10 := by
  by_cases h1 : meteo_7j = []
  · simp only [calculer_risque_oidium, if_pos h1]
    norm_num
  · simp only [calculer_risque_oidium, if_neg h1]
    by_cases h2 : ((List.filterMap id meteo_7j).length : ℤ) * 3 = 0
    · rw [if_pos h2]
      norm_num
    · rw [if_neg h2]
      constructor
      · exact pyRound1_nonneg (le_min (by norm_num) (le_max_left _ _))
      · exact pyRound1_le_ten (min_le_left _ _)

end ModeleOidium

namespace GestionTraitements

/-- Characterization of `calculer_protection_actuelle` once a most recent,
non-future treatment with non-zero persistence exists and the leaching sum
computes: the result is the leaching override or the bound
time-decay/growth-dilution pair, rounded to one decimal. -/
theorem calculer_protection_eq
    {historique : List Traitement} {parcelle : String} {date_actuelle : ℤ}
    {meteo : List (ℤ × WeatherDay)} (stade : String)
    {t dernier : Traitement} {rest : List Traitement} {psum : ℚ}
    (hfilter : historique.filter (fun u => u.parcelle = parcelle) = t :: rest)
    (hmax : maxByDate rest t = dernier)
    (hdate : dernier.date ≤ date_actuelle)
    (hpers : dernier.caracteristiques.persistance_jours ≠ 0)
    (hpluie : pluie_depuis_traitement meteo dernier.date date_actuelle = .ok psum) :
    calculer_protection_actuelle historique parcelle date_actuelle meteo stade =
      .ok (pyRound1 (if psum > dernier.caracteristiques.lessivage_seuil_mm then 0
             else (protection_et_facteur (date_actuelle - dernier.date)
               dernier.caracteristiques stade).1),
           some dernier,
           if psum > dernier.caracteristiques.lessivage_seuil_mm then .lessivage psum
             else (protection_et_facteur (date_actuelle - dernier.date)
               dernier.caracteristiques stade).2) := by
  unfold calculer_protection_actuelle
  rw [hfilter]
  dsimp only
  rw [hmax]
  rw [if_neg (by omega : ¬ (date_actuelle - dernier.date < 0)), if_neg hpers, hpluie]
  dsimp only
  by_cases hle : psum > dernier.caracteristiques.lessivage_seuil_mm
  · rw [if_pos hle, if_pos hle, if_pos hle]
  · rw [if_neg hle, if_neg hle, if_neg hle]

end GestionTraitements

/-- C4: with a most recent non-future treatment, the protection is the
rounded time-decay value unless the product is contact or penetrant and the
growth-dilution value is strictly lower (then that value binds and the
factor reports growth dilution); leaching overrides both, forcing 0. -/
theorem claim_C4 :
    ∀ (historique : List GestionTraitements.Traitement) (parcelle : String)
      (date_actuelle : ℤ) (meteo : List (ℤ × WeatherDay)) (stade : String)
      (t dernier : GestionTraitements.Traitement)
      (rest : List GestionTraitements.Traitement) (psum : ℚ),
      historique.filter (fun u => u.parcelle = parcelle) = t :: rest →
      GestionTraitements.maxByDate rest t = dernier →
      dernier.date ≤ date_actuelle →
      0 < dernier.caracteristiques.persistance_jours →
      GestionTraitements.pluie_depuis_traitement meteo dernier.date date_actuelle =
        .ok psum →
      ((psum > dernier.caracteristiques.lessivage_seuil_mm →
          GestionTraitements.calculer_protection_actuelle historique parcelle date_actuelle meteo stade = .ok (0, some dernier, .lessivage psum))
       ∧
       (¬ psum > dernier.caracteristiques.lessivage_seuil_mm →
         (((dernier.caracteristiques.type = "contact" ∨ dernier.caracteristiques.type = "penetrant") ∧ GestionTraitements.protection_pousse (date_actuelle - dernier.date) (GestionTraitements.COEF_POUSSE stade) < GestionTraitements.protection_temps (date_actuelle - dernier.date) dernier.caracteristiques.persistance_jours →
            GestionTraitements.calculer_protection_actuelle historique parcelle date_actuelle meteo stade = .ok (pyRound1 (GestionTraitements.protection_pousse (date_actuelle - dernier.date) (GestionTraitements.COEF_POUSSE stade)), some dernier, .pousseDilution))
          ∧
          (¬ ((dernier.caracteristiques.type = "contact" ∨ dernier.caracteristiques.type = "penetrant") ∧ GestionTraitements.protection_pousse (date_actuelle - dernier.date) (GestionTraitements.COEF_POUSSE stade) < GestionTraitements.protection_temps (date_actuelle - dernier.date) dernier.caracteristiques.persistance_jours) →
            GestionTraitements.calculer_protection_actuelle historique parcelle date_actuelle meteo stade = .ok (pyRound1 (GestionTraitements.protection_temps (date_actuelle - dernier.date) dernier.caracteristiques.persistance_jours), some dernier, .persistance))))) := by
  intro historique parcelle date_actuelle meteo stade t dernier rest psum
    hfilter hmax hdate hpers hpluie
  have hchar := GestionTraitements.calculer_protection_eq stade hfilter hmax hdate
    (by linarith : dernier.caracteristiques.persistance_jours ≠ 0) hpluie
  constructor
  · intro hle
    rw [hchar, if_pos hle, if_pos hle, pyRound1_zero]
  · intro hnle
    rw [hchar, if_neg hnle, if_neg hnle]
    constructor
    · rintro ⟨htype, hlt⟩
      unfold GestionTraitements.protection_et_facteur
      rw [if_pos htype, if_pos hlt]
    · intro hnot
      unfold GestionTraitements.protection_et_facteur
      by_cases htype : dernier.caracteristiques.type = "contact" ∨
          dernier.caracteristiques.type = "penetrant"
      · rw [if_pos htype,
          if_neg (fun hlt => hnot ⟨htype, hlt⟩)]
      · rw [if_neg htype]

/-- Witness for C4: the end-to-end scenario of the spec — contact product,
persistence 10 d, leaching threshold 30 mm, applied 5 days ago, stage
"pousse_10cm" (growth coefficient 2.0), no rain: growth dilution binds and
the protection is 0. -/
theorem claim_C4_witness :
    GestionTraitements.calculer_protection_actuelle
      [⟨"P", 0, ⟨"Bouillie bordelaise", 10, 30, "contact"⟩⟩] "P" 5 [] "pousse_10cm" =
      .ok (0, some ⟨"P", 0, ⟨"Bouillie bordelaise", 10, 30, "contact"⟩⟩,
           .pousseDilution) := by
  have hpp : GestionTraitements.protection_pousse (5 - (0 : ℤ))
      (GestionTraitements.COEF_POUSSE "pousse_10cm") = 0 := by
    simp [GestionTraitements.protection_pousse, GestionTraitements.COEF_POUSSE]
    norm_num
  have hpt : GestionTraitements.protection_temps (5 - (0 : ℤ)) 10 = 5 := by
    simp [GestionTraitements.protection_temps]
    norm_num [max_def]
  have h := (claim_C4 [⟨"P", 0, ⟨"Bouillie bordelaise", 10, 30, "contact"⟩⟩] "P" 5 []
    "pousse_10cm" ⟨"P", 0, ⟨"Bouillie bordelaise", 10, 30, "contact"⟩⟩
    ⟨"P", 0, ⟨"Bouillie bordelaise", 10, 30, "contact"⟩⟩ [] 0
    (by simp) rfl (by norm_num) (by norm_num) rfl).2 (by norm_num)
  have h2 := h.1 ⟨Or.inl rfl, by rw [hpp, hpt]; norm_num⟩
  rw [h2, hpp, pyRound1_zero]

namespace GestionTraitements

theorem COEF_POUSSE_nonneg (s : String) : 0 ≤ COEF_POUSSE s := by
  unfold COEF_POUSSE
  split_ifs <;> norm_num

theorem protection_temps_nonneg (j : ℤ) (p : ℚ) : 0 ≤ protection_temps j p :=
  le_max_left 0 _

theorem protection_pousse_nonneg (j : ℤ) (c : ℚ) : 0 ≤ protection_pousse j c :=
  le_max_left 0 _

theorem protection_temps_le_ten {j : ℤ} {p : ℚ} (hj : 0 ≤ j) (hp : 0 < p) :
    protection_temps j p ≤ 10 := by
  unfold protection_temps
  have hjq : (0 : ℚ) ≤ (j : ℚ) := by exact_mod_cast hj
  have h1 : 0 ≤ (j : ℚ) / p * 10 := by positivity
  exact max_le (by norm_num) (by linarith)

theorem protection_temps_antitone {p : ℚ} (hp : 0 < p) {j1 j2 : ℤ} (h : j1 ≤ j2) :
    protection_temps j2 p ≤ protection_temps j1 p := by
  unfold protection_temps
  apply max_le_max le_rfl
  have hc : (j1 : ℚ) ≤ (j2 : ℚ) := by exact_mod_cast h
  have hd : (j1 : ℚ) / p ≤ (j2 : ℚ) / p := by gcongr
  linarith

theorem protection_pousse_antitone {c : ℚ} (hc : 0 ≤ c) {j1 j2 : ℤ} (h : j1 ≤ j2) :
    protection_pousse j2 c ≤ protection_pousse j1 c := by
  unfold protection_pousse
  apply max_le_max le_rfl
  have hq : (j1 : ℚ) ≤ (j2 : ℚ) := by exact_mod_cast h
  nlinarith

theorem protection_temps_strict {p : ℚ} (hp : 0 < p) {j : ℤ}
    (hpos : 0 < protection_temps j p) :
    protection_temps (j + 1) p < protection_temps j p := by
  unfold protection_temps at *
  have hstep : ((j + 1 : ℤ) : ℚ) / p * 10 = (j : ℚ) / p * 10 + 10 / p := by
    push_cast
    field_simp
    ring
  have h10p : 0 < 10 / p := by positivity
  have hform : 0 < 10 - (j : ℚ) / p * 10 := by
    by_contra hcon
    push_neg at hcon
    rw [max_eq_left (by linarith)] at hpos
    exact lt_irrefl 0 hpos
  rw [max_eq_right (by linarith : (0 : ℚ) ≤ 10 - (j : ℚ) / p * 10)]
  refine max_lt (by linarith) ?_
  rw [hstep]
  linarith

theorem protection_pousse_strict {c : ℚ} (hc : 0 < c) {j : ℤ}
    (hpos : 0 < protection_pousse j c) :
    protection_pousse (j + 1) c < protection_pousse j c := by
  unfold protection_pousse at *
  have hstep : ((j + 1 : ℤ) : ℚ) * c = (j : ℚ) * c + c := by push_cast; ring
  have hform : 0 < 10 - (j : ℚ) * c := by
    by_contra hcon
    push_neg at hcon
    rw [max_eq_left (by linarith)] at hpos
    exact lt_irrefl 0 hpos
  rw [max_eq_right (by linarith : (0 : ℚ) ≤ 10 - (j : ℚ) * c)]
  refine max_lt (by linarith) ?_
  rw [hstep]
  linarith

/-- The bound protection value is the minimum of the two decays for contact
and penetrant products, and the time decay alone otherwise. -/
theorem protection_et_facteur_fst (j : ℤ) (c : Caracteristiques) (s : String) :
    (protection_et_facteur j c s).1 =
      if c.type = "contact" ∨ c.type = "penetrant" then
        min (protection_pousse j (COEF_POUSSE s)) (protection_temps j c.persistance_jours)
      else protection_temps j c.persistance_jours := by
  unfold protection_et_facteur
  by_cases h1 : c.type = "contact" ∨ c.type = "penetrant"
  · rw [if_pos h1, if_pos h1]
    by_cases h2 : protection_pousse j (COEF_POUSSE s) <
        protection_temps j c.persistance_jours
    · rw [if_pos h2]
      exact (min_eq_left h2.le).symm
    · rw [if_neg h2]
      exact (min_eq_right (not_lt.mp h2)).symm
  · rw [if_neg h1, if_neg h1]

theorem protection_et_facteur_nonneg (j : ℤ) (c : Caracteristiques) (s : String) :
    0 ≤ (protection_et_facteur j c s).1 := by
  rw [protection_et_facteur_fst]
  split_ifs
  · exact le_min (protection_pousse_nonneg _ _) (protection_temps_nonneg _ _)
  · exact protection_temps_nonneg _ _

theorem protection_et_facteur_antitone {c : Caracteristiques}
    (hp : 0 < c.persistance_jours) (s : String) {j1 j2 : ℤ} (h : j1 ≤ j2) :
    (protection_et_facteur j2 c s).1 ≤ (protection_et_facteur j1 c s).1 := by
  rw [protection_et_facteur_fst, protection_et_facteur_fst]
  split_ifs
  · exact min_le_min (protection_pousse_antitone (COEF_POUSSE_nonneg s) h)
      (protection_temps_antitone hp h)
  · exact protection_temps_antitone hp h

/-- Before rounding, the bound protection strictly decreases with the
elapsed days while it is still positive. -/
theorem protection_et_facteur_strict {c : Caracteristiques}
    (hp : 0 < c.persistance_jours) (s : String) {j : ℤ} (hj : 0 ≤ j)
    (hpos : 0 < (protection_et_facteur j c s).1) :
    (protection_et_facteur (j + 1) c s).1 < (protection_et_facteur j c s).1 := by
  rw [protection_et_facteur_fst] at hpos ⊢
  rw [protection_et_facteur_fst]
  by_cases htype : c.type = "contact" ∨ c.type = "penetrant"
  · simp only [if_pos htype] at hpos ⊢
    have hppos : 0 < protection_pousse j (COEF_POUSSE s) :=
      lt_of_lt_of_le hpos (min_le_left _ _)
    have hptpos : 0 < protection_temps j c.persistance_jours :=
      lt_of_lt_of_le hpos (min_le_right _ _)
    rcases eq_or_lt_of_le (COEF_POUSSE_nonneg s) with hc0 | hc0
    · have hpp_j : protection_pousse j (COEF_POUSSE s) = 10 := by
        unfold protection_pousse
        rw [← hc0]
        norm_num
      have hpp_j1 : protection_pousse (j + 1) (COEF_POUSSE s) = 10 := by
        unfold protection_pousse
        rw [← hc0]
        norm_num
      rw [hpp_j, hpp_j1, min_eq_right (protection_temps_le_ten (by omega) hp),
        min_eq_right (protection_temps_le_ten hj hp)]
      exact protection_temps_strict hp hptpos
    · have h1 := protection_pousse_strict hc0 hppos
      have h2 := protection_temps_strict hp hptpos
      exact lt_min (lt_of_le_of_lt (min_le_left _ _) h1)
        (lt_of_le_of_lt (min_le_right _ _) h2)
  · simp only [if_neg htype] at hpos ⊢
    exact protection_temps_strict hp hpos

/-- With non-negative precipitation values, the rain sum since the
treatment is monotone in the evaluation date. -/
theorem pluie_depuis_mono :
    ∀ (meteo : List (ℤ × WeatherDay)) (d0 dA dB : ℤ) (sA sB : ℚ),
      dA ≤ dB →
      (∀ e ∈ meteo, ∀ p, e.2.precipitation.getD 0 = some p → 0 ≤ p) →
      pluie_depuis_traitement meteo d0 dA = .ok sA →
      pluie_depuis_traitement meteo d0 dB = .ok sB →
      sA ≤ sB := by
  intro meteo
  induction meteo with
  | nil =>
    intro d0 dA dB sA sB _ _ hA hB
    simp only [pluie_depuis_traitement, Except.ok.injEq] at hA hB
    rw [← hA, ← hB]
  | cons e rest ih =>
    intro d0 dA dB sA sB hAB hnn hA hB
    have hnn' := fun u hu => hnn u (List.mem_cons_of_mem _ hu)
    simp only [pluie_depuis_traitement] at hA hB
    by_cases hinA : d0 ≤ e.1 ∧ e.1 ≤ dA
    · have hinB : d0 ≤ e.1 ∧ e.1 ≤ dB := ⟨hinA.1, le_trans hinA.2 hAB⟩
      rw [if_pos hinA] at hA
      rw [if_pos hinB] at hB
      cases hp : e.2.precipitation.getD 0 with
      | none =>
        rw [hp] at hA
        simp at hA
      | some p =>
        rw [hp] at hA hB
        cases hrA : pluie_depuis_traitement rest d0 dA with
        | error u =>
          rw [hrA] at hA
          simp [Except.map] at hA
        | ok qA =>
          cases hrB : pluie_depuis_traitement rest d0 dB with
          | error u =>
            rw [hrB] at hB
            simp [Except.map] at hB
          | ok qB =>
            rw [hrA] at hA
            rw [hrB] at hB
            simp only [Except.map, Except.ok.injEq] at hA hB
            have hq := ih d0 dA dB qA qB hAB hnn' hrA hrB
            rw [← hA, ← hB]
            linarith
    · by_cases hinB : d0 ≤ e.1 ∧ e.1 ≤ dB
      · rw [if_neg hinA] at hA
        rw [if_pos hinB] at hB
        cases hp : e.2.precipitation.getD 0 with
        | none =>
          rw [hp] at hB
          simp at hB
        | some p =>
          rw [hp] at hB
          cases hrB : pluie_depuis_traitement rest d0 dB with
          | error u =>
            rw [hrB] at hB
            simp [Except.map] at hB
          | ok qB =>
            rw [hrB] at hB
            simp only [Except.map, Except.ok.injEq] at hB
            have hp0 : 0 ≤ p := hnn e (List.mem_cons_self _ _) p hp
            have hq := ih d0 dA dB sA qB hAB hnn' hA hrB
            rw [← hB]
            linarith
      · rw [if_neg hinA] at hA
        rw [if_neg hinB] at hB
        exact ih d0 dA dB sA sB hAB hnn' hA hB

/-- When the leaching sum raises, the whole computation raises. -/
theorem calculer_protection_error
    {historique : List Traitement} {parcelle : String} {date_actuelle : ℤ}
    {meteo : List (ℤ × WeatherDay)} (stade : String)
    {t dernier : Traitement} {rest : List Traitement} {e : Unit}
    (hfilter : historique.filter (fun u => u.parcelle = parcelle) = t :: rest)
    (hmax : maxByDate rest t = dernier)
    (hdate : dernier.date ≤ date_actuelle)
    (hpers : dernier.caracteristiques.persistance_jours ≠ 0)
    (hpluie : pluie_depuis_traitement meteo dernier.date date_actuelle = .error e) :
    calculer_protection_actuelle historique parcelle date_actuelle meteo stade =
      .error e := by
  unfold calculer_protection_actuelle
  rw [hfilter]
  dsimp only
  rw [hmax]
  rw [if_neg (by omega : ¬ (date_actuelle - dernier.date < 0)), if_neg hpers, hpluie]

end GestionTraitements

-- ==== C8 ====

/-- C8: the mildew decision score is the simple infection-risk score minus
the protection score (both model outputs have one decimal, so the rounded
stored score equals the difference), and (action, urgency) follow the three
bands at thresholds 5 and 2. -/
theorem claim_C8 :
    ∀ risque_simple protection : ℚ,
      (SystemeDecision.decision_mildiou risque_simple protection).1 =
        pyRound1 (risque_simple - protection)
    ∧ ((∃ a b : ℤ, risque_simple = (a : ℚ) / 10 ∧ protection = (b : ℚ) / 10) →
        (SystemeDecision.decision_mildiou risque_simple protection).1 =
          risque_simple - protection)
    ∧ (risque_simple - protection ≥ 5 →
        (SystemeDecision.decision_mildiou risque_simple protection).2 =
          ("TRAITER MAINTENANT (Mildiou)", "haute"))
    ∧ (risque_simple - protection < 5 → risque_simple - protection ≥ 2 →
        (SystemeDecision.decision_mildiou risque_simple protection).2 =
          ("Surveiller - Traiter si pluie annoncée (Mildiou)", "moyenne"))
    ∧ (risque_simple - protection < 2 →
        (SystemeDecision.decision_mildiou risque_simple protection).2 =
          ("Pas de traitement Mildiou nécessaire", "faible")) := by
  intro r p
  unfold SystemeDecision.decision_mildiou SystemeDecision.SEUIL_DECISION_HAUTE
    SystemeDecision.SEUIL_DECISION_MOYENNE
  refine ⟨rfl, ?_, ?_, ?_, ?_⟩
  · rintro ⟨a, b, rfl, rfl⟩
    rw [div_sub_div_same]
    rw [show ((a : ℚ) - b) = ((a - b : ℤ) : ℚ) by push_cast; ring]
    exact pyRound1_tenth (a - b)
  · intro h
    simp only [if_pos h]
  · intro h1 h2
    simp only [if_neg (by linarith : ¬ (r - p ≥ 5)), if_pos h2]
  · intro h
    simp only [if_neg (by linarith : ¬ (r - p ≥ 5)), if_neg (by linarith : ¬ (r - p ≥ 2))]

/-- Witness for C8: risk 7, protection 1 gives score 6 and the urgent band. -/
theorem claim_C8_witness :
    ((SystemeDecision.decision_mildiou 7 1).1 = pyRound1 (7 - 1)
      ∧ (SystemeDecision.decision_mildiou 7 1).1 = 7 - 1
      ∧ (SystemeDecision.decision_mildiou 7 1).2 = ("TRAITER MAINTENANT (Mildiou)", "haute"))
    ∧ (SystemeDecision.decision_mildiou 7 7).2 =
        ("Pas de traitement Mildiou nécessaire", "faible") :=
  ⟨⟨(claim_C8 7 1).1,
    (claim_C8 7 1).2.1 ⟨70, 10, by norm_num, by norm_num⟩,
    (claim_C8 7 1).2.2.1 (by norm_num)⟩,
   (claim_C8 7 7).2.2.2.2 (by norm_num)⟩

-- ==== C10 ====

/-- C10: the emitted decision score is not clamped below: whenever the
protection score exceeds the risk score (both one-decimal model outputs),
the stored score is their (negative) difference and the urgency is
"faible"; it reaches −10 at risk 0 and protection 10. -/
theorem claim_C10 :
    (∀ a b : ℤ, (a : ℚ) / 10 < (b : ℚ) / 10 →
      (SystemeDecision.decision_mildiou ((a : ℚ) / 10) ((b : ℚ) / 10)).1 =
        (a : ℚ) / 10 - (b : ℚ) / 10
      ∧ (SystemeDecision.decision_mildiou ((a : ℚ) / 10) ((b : ℚ) / 10)).1 < 0
      ∧ (SystemeDecision.decision_mildiou ((a : ℚ) / 10) ((b : ℚ) / 10)).2.2 = "faible")
  ∧ SystemeDecision.decision_mildiou 0 10 =
      (-10, "Pas de traitement Mildiou nécessaire", "faible") := by
  constructor
  · intro a b h
    have hs : (SystemeDecision.decision_mildiou ((a : ℚ) / 10) ((b : ℚ) / 10)).1 =
        (a : ℚ) / 10 - (b : ℚ) / 10 :=
      (claim_C8 ((a : ℚ) / 10) ((b : ℚ) / 10)).2.1 ⟨a, b, rfl, rfl⟩
    refine ⟨hs, ?_, ?_⟩
    · rw [hs]; linarith
    · have := (claim_C8 ((a : ℚ) / 10) ((b : ℚ) / 10)).2.2.2.2 (by linarith)
      rw [Prod.ext_iff] at this
      exact this.2
  · unfold SystemeDecision.decision_mildiou SystemeDecision.SEUIL_DECISION_HAUTE
      SystemeDecision.SEUIL_DECISION_MOYENNE
    norm_num [pyRound1_neg_ten]

/-- Witness for C10 at risk 0, protection 10. -/
theorem claim_C10_witness :
    (0 : ℚ) / 10 < (100 : ℚ) / 10 ∧
    (SystemeDecision.decision_mildiou ((0 : ℚ) / 10) ((100 : ℚ) / 10)).1 < 0 ∧
    (SystemeDecision.decision_mildiou ((0 : ℚ) / 10) ((100 : ℚ) / 10)).2.2 = "faible" :=
  ⟨by norm_num, (claim_C10.1 0 100 (by norm_num)).2.1, (claim_C10.1 0 100 (by norm_num)).2.2⟩

-- ==== C7 ====

/-- C7: GDD and water balance pick the same season start; the biofix date
is used exactly when it is present, in the current year, and not after
today; otherwise March 1st of the current year is used; and (outside
dormancy) `_calculer_gdd` reports the mode of that same choice. -/
theorem claim_C7 :
    ∀ (p : Parcelle) (aujourdhui : PyDate),
      (SystemeDecision.date_debut_gdd p aujourdhui).1 =
        ModeleBilanHydrique.date_debut_bilan p aujourdhui
    ∧ (∀ b, p.date_debourrement = some b →
        ((b.year = aujourdhui.year ∧ pyDateLe b aujourdhui) →
          ModeleBilanHydrique.date_debut_bilan p aujourdhui = b ∧
          (SystemeDecision.date_debut_gdd p aujourdhui).2 = .biofixMode b)
        ∧ (¬ (b.year = aujourdhui.year ∧ pyDateLe b aujourdhui) →
          ModeleBilanHydrique.date_debut_bilan p aujourdhui = mars1 aujourdhui.year ∧
          (SystemeDecision.date_debut_gdd p aujourdhui).2 = .premierMars))
    ∧ (p.date_debourrement = none →
        ModeleBilanHydrique.date_debut_bilan p aujourdhui = mars1 aujourdhui.year ∧
        (SystemeDecision.date_debut_gdd p aujourdhui).2 = .premierMars)
    ∧ (∀ (meteo : List (PyDate × WeatherDay)) (stade : String), stade ≠ "repos" → ∀ g : ℚ,
        SystemeDecision.somme_gdd (sortByDate meteo)
          (SystemeDecision.date_debut_gdd p aujourdhui).1 aujourdhui = .ok g →
        (SystemeDecision.calculer_gdd p meteo aujourdhui stade).2.2.2.2 =
          (SystemeDecision.date_debut_gdd p aujourdhui).2) := by
  intro p aujourdhui
  refine ⟨?_, ?_, ?_, ?_⟩
  · unfold SystemeDecision.date_debut_gdd ModeleBilanHydrique.date_debut_bilan
    cases p.date_debourrement with
    | none => rfl
    | some b =>
        dsimp only
        split_ifs <;> rfl
  · intro b hb
    unfold SystemeDecision.date_debut_gdd ModeleBilanHydrique.date_debut_bilan
    rw [hb]
    dsimp only
    constructor
    · intro hc
      rw [if_pos hc, if_pos hc]
      exact ⟨rfl, rfl⟩
    · intro hc
      rw [if_neg hc, if_neg hc]
      exact ⟨rfl, rfl⟩
  · intro hb
    unfold SystemeDecision.date_debut_gdd ModeleBilanHydrique.date_debut_bilan
    rw [hb]
    exact ⟨rfl, rfl⟩
  · intro meteo stade hstade g hsum
    unfold SystemeDecision.calculer_gdd
    rw [if_neg hstade]
    dsimp only
    rw [hsum]

/-- Witness for C7: a biofix inside the current year and before today is
selected by both computations, and the GDD mode reports it. -/
theorem claim_C7_witness :
    (SystemeDecision.date_debut_gdd
        { nom := "P", stade_actuel := "floraison", date_debourrement := some ⟨2025, 80⟩ }
        ⟨2025, 100⟩).1 =
      ModeleBilanHydrique.date_debut_bilan
        { nom := "P", stade_actuel := "floraison", date_debourrement := some ⟨2025, 80⟩ }
        ⟨2025, 100⟩
    ∧ ModeleBilanHydrique.date_debut_bilan
        { nom := "P", stade_actuel := "floraison", date_debourrement := some ⟨2025, 80⟩ }
        ⟨2025, 100⟩ = ⟨2025, 80⟩
    ∧ (SystemeDecision.calculer_gdd
        { nom := "P", stade_actuel := "floraison", date_debourrement := some ⟨2025, 80⟩ }
        [] ⟨2025, 100⟩ "floraison").2.2.2.2 = .biofixMode ⟨2025, 80⟩ := by
  have hP := claim_C7
    { nom := "P", stade_actuel := "floraison", date_debourrement := some ⟨2025, 80⟩ }
    ⟨2025, 100⟩
  refine ⟨hP.1, ?_, ?_⟩
  · exact ((hP.2.1 ⟨2025, 80⟩ rfl).1 ⟨rfl, by decide⟩).1
  · have hm := (hP.2.1 ⟨2025, 80⟩ rfl).1 ⟨rfl, by decide⟩
    have hg := hP.2.2.2 [] "floraison" (by decide) 0 rfl
    rw [hg, hm.2]

-- ==== C2 ====

/-- C2 refutation: a weather record whose precipitation field is present
but null makes `ModeleSimple.calculer_risque_infection` and
`GestionTraitements.calculer_protection_actuelle` raise a `TypeError`
(modelled as an error) instead of returning the documented fallback. -/
theorem claim_C2_refutation :
    ModeleSimple.calculer_risque_infection
      [some { precipitation := .null, temp_moy := .val 20, humidite := .val 80 }] 1 5 =
      .error ()
  ∧ GestionTraitements.calculer_protection_actuelle
      [{ parcelle := "P", date := 0,
         caracteristiques := { nom := "Bouillie bordelaise", persistance_jours := 10,
                               lessivage_seuil_mm := 30, type := "contact" } }]
      "P" 3 [((1 : ℤ), { precipitation := .null })] "floraison" = .error () := by
  constructor
  · norm_num [ModeleSimple.calculer_risque_infection, ModeleSimple.somme_pluie,
      Champ.getD, List.filterMap, Except.map]
  · norm_num [GestionTraitements.calculer_protection_actuelle,
      GestionTraitements.maxByDate, GestionTraitements.protection_et_facteur,
      GestionTraitements.protection_temps, GestionTraitements.protection_pousse,
      GestionTraitements.COEF_POUSSE, GestionTraitements.pluie_depuis_traitement,
      Champ.getD, List.filter, Except.map]

namespace ModeleSimple

theorem somme_pluie_ok :
    ∀ l : List WeatherDay, (∀ w ∈ l, w.precipitation ≠ Champ.null) →
      ∃ q, somme_pluie l = .ok q := by
  intro l
  induction l with
  | nil => exact fun _ => ⟨0, rfl⟩
  | cons w ws ih =>
    intro h
    obtain ⟨q, hq⟩ := ih (fun u hu => h u (List.mem_cons_of_mem _ hu))
    have hw := h w (List.mem_cons_self _ _)
    cases hp : w.precipitation with
    | null => exact absurd hp hw
    | absent =>
      exact ⟨0 + q, by simp only [somme_pluie, hp, Champ.getD, hq, Except.map]⟩
    | val x =>
      exact ⟨x + q, by simp only [somme_pluie, hp, Champ.getD, hq, Except.map]⟩

theorem somme_temp_ok :
    ∀ l : List WeatherDay, (∀ w ∈ l, ∃ x, w.temp_moy = Champ.val x) →
      ∃ q, somme_temp_humides l = .ok q := by
  intro l
  induction l with
  | nil => exact fun _ => ⟨0, rfl⟩
  | cons w ws ih =>
    intro h
    obtain ⟨q, hq⟩ := ih (fun u hu => h u (List.mem_cons_of_mem _ hu))
    obtain ⟨x, hx⟩ := h w (List.mem_cons_self _ _)
    exact ⟨x + q, by simp only [somme_temp_humides, hx, Champ.getNum, hq, Except.map]⟩

/-- When the window is non-empty, some present record has a mean
temperature, no present record has a humidity value, every present
record has non-null precipitation and every wet record has a numeric mean
temperature, the simple model hits the humidity fallback and returns
`(0, "FAIBLE")`. -/
theorem risque_simple_sans_humidite :
    ∀ (meteo_48h : List (Option WeatherDay)) (stade_coef sensibilite_cepage : ℚ),
      meteo_48h ≠ [] →
      (∃ w ∈ meteo_48h.filterMap id, (w.temp_moy.getOpt).isSome) →
      (∀ w ∈ meteo_48h.filterMap id, w.humidite.getOpt = none) →
      (∀ w ∈ meteo_48h.filterMap id, w.precipitation ≠ Champ.null) →
      (∀ w ∈ meteo_48h.filterMap id, est_humide w → ∃ x, w.temp_moy = Champ.val x) →
      calculer_risque_infection meteo_48h stade_coef sensibilite_cepage =
        .ok (0, "FAIBLE") := by
  intro meteo coef sens hne htemp hhum hprec hwet
  obtain ⟨q, hq⟩ := somme_pluie_ok _ hprec
  have htl : List.filterMap (fun w => w.temp_moy.getOpt) (meteo.filterMap id) ≠ [] := by
    obtain ⟨w, hw, hs⟩ := htemp
    obtain ⟨x, hx⟩ := Option.isSome_iff_exists.mp hs
    exact List.ne_nil_of_mem (List.mem_filterMap.mpr ⟨w, hw, hx⟩)
  have hhl : List.filterMap (fun w => w.humidite.getOpt) (meteo.filterMap id) = [] :=
    List.filterMap_eq_nil_iff.mpr hhum
  simp only [calculer_risque_infection, if_neg hne, hq]
  rw [if_neg htl]
  by_cases hj : (List.filter est_humide (meteo.filterMap id)).length ≠ 0
  · obtain ⟨qt, hqt⟩ := somme_temp_ok _
      (fun w hw => hwet w (List.mem_filter.mp hw).1 (List.mem_filter.mp hw).2)
    rw [if_pos hj, hqt]
    simp [hhl, Except.map]
  · rw [if_neg hj]
    simp [hhl, Except.map]

end ModeleSimple

/-- C9 counterexample: a window that has a defined mean temperature and no
humidity value but a null precipitation makes the function raise instead
of returning the fallback. -/
theorem claim_C9_contre :
    ModeleSimple.calculer_risque_infection
      [some { precipitation := .null, temp_moy := .val 20 }] 1 5 = .error ()
  ∧ ModeleSimple.calculer_risque_infection
      [some { precipitation := .null, temp_moy := .val 20 }] 1 5 ≠ .ok (0, "FAIBLE") := by
  have h : ModeleSimple.calculer_risque_infection
      [some { precipitation := .null, temp_moy := .val 20 }] 1 5 = .error () := by
    norm_num [ModeleSimple.calculer_risque_infection, ModeleSimple.somme_pluie,
      Champ.getD, List.filterMap, Except.map]
  exact ⟨h, by rw [h]; simp⟩

/-- C9 amended: the humidity fallback `(0.0, "FAIBLE")` fires on every
non-empty window with a defined mean temperature and no humidity value,
provided no present record stores a null precipitation and every wet
record carries a numeric mean temperature (otherwise the function raises
first). -/
theorem claim_C9_amended :
    ∀ (meteo_48h : List (Option WeatherDay)) (stade_coef sensibilite_cepage : ℚ),
      meteo_48h ≠ [] →
      (∃ w ∈ meteo_48h.filterMap id, (w.temp_moy.getOpt).isSome) →
      (∀ w ∈ meteo_48h.filterMap id, w.humidite.getOpt = none) →
      (∀ w ∈ meteo_48h.filterMap id, w.precipitation ≠ Champ.null) →
      (∀ w ∈ meteo_48h.filterMap id, ModeleSimple.est_humide w →
        ∃ x, w.temp_moy = Champ.val x) →
      ModeleSimple.calculer_risque_infection meteo_48h stade_coef sensibilite_cepage =
        .ok (0, "FAIBLE") :=
  ModeleSimple.risque_simple_sans_humidite

/-- Witness for the amended C9 on a concrete rainy, temperature-only
window. -/
theorem claim_C9_witness :
    ModeleSimple.calculer_risque_infection
      [some { precipitation := .val 12, temp_moy := .val 22 }] 2 7 = .ok (0, "FAIBLE") :=
  claim_C9_amended [some { precipitation := .val 12, temp_moy := .val 22 }] 2 7
    (by simp)
    ⟨{ precipitation := .val 12, temp_moy := .val 22 }, by simp, by simp [Champ.getOpt]⟩
    (by simp [Champ.getOpt])
    (by simp)
    (by intro w hw _; simp at hw; subst hw; exact ⟨22, rfl⟩)

/-- C1 counterexample: the simple model does not clamp below 0 — a negative
stage coefficient yields a returned score of −10. -/
theorem claim_C1_contre :
    ModeleSimple.calculer_risque_infection
      [some { precipitation := .val 10, temp_moy := .val 22, humidite := .val 90 }]
      (-1) 5 = .ok (-10, "FAIBLE")
  ∧ ¬ (0 ≤ (-10 : ℚ)) := by
  constructor
  · norm_num [ModeleSimple.calculer_risque_infection, ModeleSimple.somme_pluie,
      ModeleSimple.est_humide, ModeleSimple.somme_temp_humides, ModeleSimple.score_et_niveau,
      ModeleSimple.score_pluie, ModeleSimple.score_temp, ModeleSimple.score_humidite,
      Champ.getD, Champ.getOpt, Champ.getNum, List.filterMap, Except.map, min_def, max_def,
      pyRound1_zero, pyRound1_ten, pyRound1_neg_ten]
  · norm_num

/-- C1 amended: with non-negative stage coefficient and sensitivity, every
score the simple model returns lies in `[0, 10]`; the powdery-mildew score
always lies in `[0, 10]`; and the IPI always lies in `[0, 100]`. -/
theorem claim_C1_amended :
    (∀ (meteo_48h : List (Option WeatherDay)) (stade_coef sensibilite_cepage s : ℚ)
        (niveau : String), 0 ≤ stade_coef → 0 ≤ sensibilite_cepage →
        ModeleSimple.calculer_risque_infection meteo_48h stade_coef sensibilite_cepage =
          .ok (s, niveau) → 0 ≤ s ∧ s ≤ 10)
  ∧ (∀ (meteo_7j : List (Option WeatherDay)) (stade_coef : ℚ),
        0 ≤ (ModeleOidium.calculer_risque_oidium meteo_7j stade_coef).1 ∧
        (ModeleOidium.calculer_risque_oidium meteo_7j stade_coef).1 ≤ 10)
  ∧ (∀ (w : WeatherDay) (d : ℚ),
        0 ≤ ModeleIPI.calculer_ipi w d ∧ ModeleIPI.calculer_ipi w d ≤ 100) :=
  ⟨fun _ _ _ _ _ hc hs hres => ModeleSimple.risque_simple_borne hc hs hres,
   ModeleOidium.risque_oidium_borne, ModeleIPI.ipi_borne⟩

/-- Witness for the amended C1 on concrete inputs of each model. -/
theorem claim_C1_witness :
    ((0 : ℚ) ≤ 1 ∧ (0 : ℚ) ≤ 7 ∧ (0 ≤ (10 : ℚ) ∧ (10 : ℚ) ≤ 10))
  ∧ (0 ≤ (ModeleOidium.calculer_risque_oidium
        [some { temp_max := .val 24, humidite := .val 70, precipitation := .val 0 }]
        (3/2)).1 ∧
      (ModeleOidium.calculer_risque_oidium
        [some { temp_max := .val 24, humidite := .val 70, precipitation := .val 0 }]
        (3/2)).1 ≤ 10)
  ∧ (0 ≤ ModeleIPI.calculer_ipi (ModeleIPI.meteoTemp 16) 8 ∧
      ModeleIPI.calculer_ipi (ModeleIPI.meteoTemp 16) 8 ≤ 100) :=
  ⟨⟨by norm_num, by norm_num,
    claim_C1_amended.1
      [some { precipitation := .val 10, temp_moy := .val 22, humidite := .val 90 }]
      1 7 10 "FORT" (by norm_num) (by norm_num)
      (by norm_num [ModeleSimple.calculer_risque_infection, ModeleSimple.somme_pluie,
        ModeleSimple.est_humide, ModeleSimple.somme_temp_humides,
        ModeleSimple.score_et_niveau, ModeleSimple.score_pluie, ModeleSimple.score_temp,
        ModeleSimple.score_humidite, Champ.getD, Champ.getOpt, Champ.getNum,
        List.filterMap, Except.map, min_def, max_def, pyRound1_zero, pyRound1_ten,
        pyRound1_neg_ten])⟩,
   claim_C1_amended.2.1
     [some { temp_max := .val 24, humidite := .val 70, precipitation := .val 0 }] (3/2),
   claim_C1_amended.2.2 (ModeleIPI.meteoTemp 16) 8⟩

/-- C5 counterexample: with a systemic product of persistence 10 and no
rain (leaching never fires), the returned protection is 0 at both 10 and
11 elapsed days — it does not strictly decrease. -/
theorem claim_C5_contre :
    GestionTraitements.calculer_protection_actuelle
      [⟨"P", 0, ⟨"Fosetyl", 10, 30, "systemique"⟩⟩] "P" 11 [] "floraison" =
      GestionTraitements.calculer_protection_actuelle
      [⟨"P", 0, ⟨"Fosetyl", 10, 30, "systemique"⟩⟩] "P" 10 [] "floraison"
  ∧ GestionTraitements.calculer_protection_actuelle
      [⟨"P", 0, ⟨"Fosetyl", 10, 30, "systemique"⟩⟩] "P" 10 [] "floraison" =
      .ok (0, some ⟨"P", 0, ⟨"Fosetyl", 10, 30, "systemique"⟩⟩, .persistance) := by
  have hpef10 : GestionTraitements.protection_et_facteur ((10 : ℤ) - 0)
      ⟨"Fosetyl", 10, 30, "systemique"⟩ "floraison" =
      ((0 : ℚ), GestionTraitements.Facteur.persistance) := by
    unfold GestionTraitements.protection_et_facteur GestionTraitements.protection_temps
    simp only [String.reduceEq, reduceIte, or_self]
    norm_num [max_def]
  have hpef11 : GestionTraitements.protection_et_facteur ((11 : ℤ) - 0)
      ⟨"Fosetyl", 10, 30, "systemique"⟩ "floraison" =
      ((0 : ℚ), GestionTraitements.Facteur.persistance) := by
    unfold GestionTraitements.protection_et_facteur GestionTraitements.protection_temps
    simp only [String.reduceEq, reduceIte, or_self]
    norm_num [max_def]
  have h10 := @GestionTraitements.calculer_protection_eq
    [⟨"P", 0, ⟨"Fosetyl", 10, 30, "systemique"⟩⟩] "P" 10 [] "floraison"
    ⟨"P", 0, ⟨"Fosetyl", 10, 30, "systemique"⟩⟩
    ⟨"P", 0, ⟨"Fosetyl", 10, 30, "systemique"⟩⟩ [] 0
    (by simp) rfl (by norm_num) (by norm_num) rfl
  have h11 := @GestionTraitements.calculer_protection_eq
    [⟨"P", 0, ⟨"Fosetyl", 10, 30, "systemique"⟩⟩] "P" 11 [] "floraison"
    ⟨"P", 0, ⟨"Fosetyl", 10, 30, "systemique"⟩⟩
    ⟨"P", 0, ⟨"Fosetyl", 10, 30, "systemique"⟩⟩ [] 0
    (by simp) rfl (by norm_num) (by norm_num) rfl
  rw [h10, h11]
  rw [if_neg (by norm_num), if_neg (by norm_num), if_neg (by norm_num),
    if_neg (by norm_num)]
  rw [hpef10, hpef11]
  exact ⟨rfl, by rw [pyRound1_zero]⟩

/-- C5 amended, part structure. -/
theorem claim_C5_amended :
    (∀ (historique : List GestionTraitements.Traitement) (parcelle : String)
       (meteo : List (ℤ × WeatherDay)) (stade : String)
       (t dernier : GestionTraitements.Traitement)
       (rest : List GestionTraitements.Traitement) (dA dB : ℤ)
       (pA pB : ℚ) (oA oB : Option GestionTraitements.Traitement)
       (fA fB : GestionTraitements.Facteur),
      historique.filter (fun u => u.parcelle = parcelle) = t :: rest →
      GestionTraitements.maxByDate rest t = dernier →
      dernier.date ≤ dA → dA ≤ dB →
      0 < dernier.caracteristiques.persistance_jours →
      (∀ e ∈ meteo, ∀ p, e.2.precipitation.getD 0 = some p → 0 ≤ p) →
      GestionTraitements.calculer_protection_actuelle historique parcelle dA meteo stade =
        .ok (pA, oA, fA) →
      GestionTraitements.calculer_protection_actuelle historique parcelle dB meteo stade =
        .ok (pB, oB, fB) →
      pB ≤ pA)
  ∧ (∀ (j : ℤ) (c : GestionTraitements.Caracteristiques) (s : String),
      0 ≤ j → 0 < c.persistance_jours →
      0 < (GestionTraitements.protection_et_facteur j c s).1 →
      (GestionTraitements.protection_et_facteur (j + 1) c s).1 <
        (GestionTraitements.protection_et_facteur j c s).1)
  ∧ (∀ (historique : List GestionTraitements.Traitement) (parcelle : String)
       (meteo : List (ℤ × WeatherDay)) (stade : String)
       (t dernier : GestionTraitements.Traitement)
       (rest : List GestionTraitements.Traitement) (dA dB : ℤ) (sA pB : ℚ)
       (oB : Option GestionTraitements.Traitement) (fB : GestionTraitements.Facteur),
      historique.filter (fun u => u.parcelle = parcelle) = t :: rest →
      GestionTraitements.maxByDate rest t = dernier →
      dernier.date ≤ dA → dA ≤ dB →
      0 < dernier.caracteristiques.persistance_jours →
      (∀ e ∈ meteo, ∀ p, e.2.precipitation.getD 0 = some p → 0 ≤ p) →
      GestionTraitements.pluie_depuis_traitement meteo dernier.date dA = .ok sA →
      sA > dernier.caracteristiques.lessivage_seuil_mm →
      GestionTraitements.calculer_protection_actuelle historique parcelle dB meteo stade =
        .ok (pB, oB, fB) →
      pB = 0 ∧ ∃ mm, fB = .lessivage mm) := by
  refine ⟨?_, ?_, ?_⟩
  · intro historique parcelle meteo stade t dernier rest dA dB pA pB oA oB fA fB
      hfilter hmax hdA hAB hpers hnn hresA hresB
    have hne : dernier.caracteristiques.persistance_jours ≠ 0 := by linarith
    cases hplA : GestionTraitements.pluie_depuis_traitement meteo dernier.date dA with
    | error u =>
      rw [GestionTraitements.calculer_protection_error stade hfilter hmax hdA hne hplA]
        at hresA
      exact absurd hresA (by simp)
    | ok sA =>
      cases hplB : GestionTraitements.pluie_depuis_traitement meteo dernier.date dB with
      | error u =>
        rw [GestionTraitements.calculer_protection_error stade hfilter hmax
          (le_trans hdA hAB) hne hplB] at hresB
        exact absurd hresB (by simp)
      | ok sB =>
        rw [GestionTraitements.calculer_protection_eq stade hfilter hmax hdA hne hplA]
          at hresA
        rw [GestionTraitements.calculer_protection_eq stade hfilter hmax
          (le_trans hdA hAB) hne hplB] at hresB
        simp only [Except.ok.injEq, Prod.mk.injEq] at hresA hresB
        obtain ⟨hpA, -, -⟩ := hresA
        obtain ⟨hpB, -, -⟩ := hresB
        rw [← hpA, ← hpB]
        have hsAB : sA ≤ sB :=
          GestionTraitements.pluie_depuis_mono meteo dernier.date dA dB sA sB hAB hnn
            hplA hplB
        by_cases hlB : sB > dernier.caracteristiques.lessivage_seuil_mm
        · rw [if_pos hlB]
          rw [pyRound1_zero]
          apply pyRound1_nonneg
          split_ifs
          · exact le_rfl
          · exact GestionTraitements.protection_et_facteur_nonneg _ _ _
        · rw [if_neg hlB, if_neg (by linarith : ¬ sA >
            dernier.caracteristiques.lessivage_seuil_mm)]
          exact pyRound1_mono (GestionTraitements.protection_et_facteur_antitone hpers
            stade (by omega))
  · intro j c s hj hp hpos
    exact GestionTraitements.protection_et_facteur_strict hp s hj hpos
  · intro historique parcelle meteo stade t dernier rest dA dB sA pB oB fB
      hfilter hmax hdA hAB hpers hnn hplA hleach hresB
    have hne : dernier.caracteristiques.persistance_jours ≠ 0 := by linarith
    cases hplB : GestionTraitements.pluie_depuis_traitement meteo dernier.date dB with
    | error u =>
      rw [GestionTraitements.calculer_protection_error stade hfilter hmax
        (le_trans hdA hAB) hne hplB] at hresB
      exact absurd hresB (by simp)
    | ok sB =>
      have hsAB : sA ≤ sB :=
        GestionTraitements.pluie_depuis_mono meteo dernier.date dA dB sA sB hAB hnn
          hplA hplB
      rw [GestionTraitements.calculer_protection_eq stade hfilter hmax
        (le_trans hdA hAB) hne hplB] at hresB
      rw [if_pos (by linarith : sB > dernier.caracteristiques.lessivage_seuil_mm),
        if_pos (by linarith : sB > dernier.caracteristiques.lessivage_seuil_mm)]
        at hresB
      simp only [Except.ok.injEq, Prod.mk.injEq] at hresB
      obtain ⟨hpB, -, hfB⟩ := hresB
      exact ⟨by rw [← hpB, pyRound1_zero], ⟨sB, hfB.symm⟩⟩

/-- Witness for the amended C5: a contact product observed at 2 and 3
elapsed days (protection drops 6 → 4), strictness of the unrounded value,
and the persistence of the leaching override. -/
theorem claim_C5_witness :
    ((4 : ℚ) ≤ 6)
  ∧ ((GestionTraitements.protection_et_facteur ((0 : ℤ) + 1)
        ⟨"B", 10, 30, "contact"⟩ "floraison").1 <
      (GestionTraitements.protection_et_facteur (0 : ℤ)
        ⟨"B", 10, 30, "contact"⟩ "floraison").1)
  ∧ ((0 : ℚ) = 0 ∧ ∃ mm, GestionTraitements.Facteur.lessivage (40 : ℚ) =
      .lessivage mm) := by
  have hpefA : GestionTraitements.protection_et_facteur ((2 : ℤ) - 0)
      ⟨"B", 10, 30, "contact"⟩ "pousse_10cm" =
      ((6 : ℚ), GestionTraitements.Facteur.pousseDilution) := by
    unfold GestionTraitements.protection_et_facteur GestionTraitements.protection_temps
      GestionTraitements.protection_pousse GestionTraitements.COEF_POUSSE
    simp only [String.reduceEq, reduceIte, or_self, or_true, or_false, true_or, false_or]
    norm_num [max_def]
  have hpefB : GestionTraitements.protection_et_facteur ((3 : ℤ) - 0)
      ⟨"B", 10, 30, "contact"⟩ "pousse_10cm" =
      ((4 : ℚ), GestionTraitements.Facteur.pousseDilution) := by
    unfold GestionTraitements.protection_et_facteur GestionTraitements.protection_temps
      GestionTraitements.protection_pousse GestionTraitements.COEF_POUSSE
    simp only [String.reduceEq, reduceIte, or_self, or_true, or_false, true_or, false_or]
    norm_num [max_def]
  have hresA : GestionTraitements.calculer_protection_actuelle
      [⟨"P", 0, ⟨"B", 10, 30, "contact"⟩⟩] "P" 2 [] "pousse_10cm" =
      .ok (6, some ⟨"P", 0, ⟨"B", 10, 30, "contact"⟩⟩, .pousseDilution) := by
    have h := @GestionTraitements.calculer_protection_eq
      [⟨"P", 0, ⟨"B", 10, 30, "contact"⟩⟩] "P" 2 [] "pousse_10cm"
      ⟨"P", 0, ⟨"B", 10, 30, "contact"⟩⟩ ⟨"P", 0, ⟨"B", 10, 30, "contact"⟩⟩ [] 0
      (by simp) rfl (by norm_num) (by norm_num) rfl
    rw [h, if_neg (by norm_num), if_neg (by norm_num), hpefA]
    rw [show pyRound1 6 = 6 from by exact_mod_cast pyRound1_int 6]
  have hresB : GestionTraitements.calculer_protection_actuelle
      [⟨"P", 0, ⟨"B", 10, 30, "contact"⟩⟩] "P" 3 [] "pousse_10cm" =
      .ok (4, some ⟨"P", 0, ⟨"B", 10, 30, "contact"⟩⟩, .pousseDilution) := by
    have h := @GestionTraitements.calculer_protection_eq
      [⟨"P", 0, ⟨"B", 10, 30, "contact"⟩⟩] "P" 3 [] "pousse_10cm"
      ⟨"P", 0, ⟨"B", 10, 30, "contact"⟩⟩ ⟨"P", 0, ⟨"B", 10, 30, "contact"⟩⟩ [] 0
      (by simp) rfl (by norm_num) (by norm_num) rfl
    rw [h, if_neg (by norm_num), if_neg (by norm_num), hpefB]
    rw [show pyRound1 4 = 4 from by exact_mod_cast pyRound1_int 4]
  refine ⟨?_, ?_, ?_⟩
  · exact claim_C5_amended.1 [⟨"P", 0, ⟨"B", 10, 30, "contact"⟩⟩] "P" [] "pousse_10cm"
      ⟨"P", 0, ⟨"B", 10, 30, "contact"⟩⟩ ⟨"P", 0, ⟨"B", 10, 30, "contact"⟩⟩ [] 2 3
      6 4 (some ⟨"P", 0, ⟨"B", 10, 30, "contact"⟩⟩)
      (some ⟨"P", 0, ⟨"B", 10, 30, "contact"⟩⟩) .pousseDilution .pousseDilution
      (by simp) rfl (by norm_num) (by norm_num) (by norm_num) (by simp)
      hresA hresB
  · apply claim_C5_amended.2.1 0 ⟨"B", 10, 30, "contact"⟩ "floraison"
      (by norm_num) (by norm_num)
    rw [GestionTraitements.protection_et_facteur_fst]
    simp only [String.reduceEq, reduceIte, or_self, or_true, or_false, true_or, false_or]
    norm_num [GestionTraitements.protection_pousse, GestionTraitements.protection_temps,
      GestionTraitements.COEF_POUSSE, String.reduceEq, min_def, max_def]
  · have hplA : GestionTraitements.pluie_depuis_traitement
        [((1 : ℤ), { precipitation := .val 40 })] (0 : ℤ) (2 : ℤ) = .ok 40 := by
      norm_num [GestionTraitements.pluie_depuis_traitement, Champ.getD, Except.map]
    have hresB2 : GestionTraitements.calculer_protection_actuelle
        [⟨"P", 0, ⟨"B", 10, 30, "contact"⟩⟩] "P" 3
        [((1 : ℤ), { precipitation := .val 40 })] "pousse_10cm" =
        .ok (0, some ⟨"P", 0, ⟨"B", 10, 30, "contact"⟩⟩, .lessivage 40) := by
      have hplB : GestionTraitements.pluie_depuis_traitement
          [((1 : ℤ), { precipitation := .val 40 })] (0 : ℤ) (3 : ℤ) = .ok 40 := by
        norm_num [GestionTraitements.pluie_depuis_traitement, Champ.getD, Except.map]
      have h := @GestionTraitements.calculer_protection_eq
        [⟨"P", 0, ⟨"B", 10, 30, "contact"⟩⟩] "P" 3
        [((1 : ℤ), { precipitation := .val 40 })] "pousse_10cm"
        ⟨"P", 0, ⟨"B", 10, 30, "contact"⟩⟩ ⟨"P", 0, ⟨"B", 10, 30, "contact"⟩⟩ [] 40
        (by simp) rfl (by norm_num) (by norm_num) hplB
      rw [h, if_pos (by norm_num), if_pos (by norm_num), pyRound1_zero]
    exact claim_C5_amended.2.2 [⟨"P", 0, ⟨"B", 10, 30, "contact"⟩⟩] "P"
      [((1 : ℤ), { precipitation := .val 40 })] "pousse_10cm"
      ⟨"P", 0, ⟨"B", 10, 30, "contact"⟩⟩ ⟨"P", 0, ⟨"B", 10, 30, "contact"⟩⟩ [] 2 3
      40 0 (some ⟨"P", 0, ⟨"B", 10, 30, "contact"⟩⟩) (.lessivage 40)
      (by simp) rfl (by norm_num) (by norm_num) (by norm_num)
      (by intro e he p hp
          simp only [List.mem_singleton] at he
          subst he
          simp only [Champ.getD, Option.some.injEq] at hp
          subst hp
          norm_num)
      hplA (by norm_num) hresB2

theorem pyRound1_hundred : pyRound1 100 = 100 := by exact_mod_cast pyRound1_int 100

/-- One step of the reservoir walk preserves the reservoir bounds and the
history-percentage bounds. -/
theorem ModeleBilanHydrique.bilan_pas_inv (date_debut aujourdhui : PyDate)
    {rfu_max_mm : ℚ} (hmax : 0 ≤ rfu_max_mm) (acc : ℚ × List (PyDate × ℚ))
    (dw : PyDate × WeatherDay) (h0 : 0 ≤ acc.1) (h1 : acc.1 ≤ rfu_max_mm)
    (hh : ∀ p ∈ acc.2, 0 ≤ p.2 ∧ p.2 ≤ 100) :
    0 ≤ (bilan_pas date_debut aujourdhui rfu_max_mm acc dw).1 ∧
    (bilan_pas date_debut aujourdhui rfu_max_mm acc dw).1 ≤ rfu_max_mm ∧
    ∀ p ∈ (bilan_pas date_debut aujourdhui rfu_max_mm acc dw).2,
      0 ≤ p.2 ∧ p.2 ≤ 100 := by
  unfold bilan_pas
  split_ifs with hif hpos
  · dsimp only
    refine ⟨le_max_left _ _, max_le hmax (min_le_left _ _), ?_⟩
    intro p hp
    rw [List.mem_append] at hp
    rcases hp with hp | hp
    · exact hh p hp
    · rw [List.mem_singleton] at hp
      subst hp
      dsimp only
      constructor
      · exact pyRound1_nonneg (mul_nonneg (div_nonneg (le_max_left _ _) hpos.le)
          (by norm_num))
      · apply pyRound1_le_hundred
        rw [div_mul_eq_mul_div, div_le_iff₀ hpos]
        have hle : max 0 (min rfu_max_mm
            (acc.1 + (dw.2.precipitation.getD 0).getD 0 - (dw.2.etp.getD 0).getD 0)) ≤
            rfu_max_mm := max_le hmax (min_le_left _ _)
        linarith
  · dsimp only
    refine ⟨le_max_left _ _, max_le hmax (min_le_left _ _), ?_⟩
    intro p hp
    rw [List.mem_append] at hp
    rcases hp with hp | hp
    · exact hh p hp
    · rw [List.mem_singleton] at hp
      subst hp
      dsimp only
      rw [pyRound1_zero]
      norm_num
  · exact ⟨h0, h1, hh⟩

/-- The whole reservoir walk preserves the bounds, whatever the starting
accumulator. -/
theorem ModeleBilanHydrique.bilan_foldl_inv (date_debut aujourdhui : PyDate)
    {rfu_max_mm : ℚ} (hmax : 0 ≤ rfu_max_mm) :
    ∀ (l : List (PyDate × WeatherDay)) (acc : ℚ × List (PyDate × ℚ)),
      0 ≤ acc.1 → acc.1 ≤ rfu_max_mm →
      (∀ p ∈ acc.2, 0 ≤ p.2 ∧ p.2 ≤ 100) →
      0 ≤ (l.foldl (bilan_pas date_debut aujourdhui rfu_max_mm) acc).1 ∧
      (l.foldl (bilan_pas date_debut aujourdhui rfu_max_mm) acc).1 ≤ rfu_max_mm ∧
      ∀ p ∈ (l.foldl (bilan_pas date_debut aujourdhui rfu_max_mm) acc).2,
        0 ≤ p.2 ∧ p.2 ≤ 100 := by
  intro l
  induction l with
  | nil => intro acc h0 h1 hh; exact ⟨h0, h1, hh⟩
  | cons dw tl ih =>
    intro acc h0 h1 hh
    rw [List.foldl_cons]
    obtain ⟨g0, g1, gh⟩ := bilan_pas_inv date_debut aujourdhui hmax acc dw h0 h1 hh
    exact ih _ g0 g1 gh

/-- C6 — confirmed. For every weather history and every non-negative maximum
reserve, the reservoir stays clamped to `[0, rfu_max_mm]` throughout the walk,
the returned percentage and every recorded daily percentage lie in `[0, 100]`;
in particular 1000 mm of rain on one processed day yields `rfu_pct = 100` and
1000 mm of evapotranspiration yields `rfu_pct = 0`. -/
theorem claim_C6 :
    (∀ (meteo : List (PyDate × WeatherDay)) (parcelle : Parcelle) (stade : String)
        (rfu_max_mm : ℚ) (aujourdhui : PyDate), 0 ≤ rfu_max_mm →
      (0 ≤ ((sortByDate meteo).foldl
          (ModeleBilanHydrique.bilan_pas
            (ModeleBilanHydrique.date_debut_bilan parcelle aujourdhui) aujourdhui
            rfu_max_mm) (rfu_max_mm, [])).1 ∧
        ((sortByDate meteo).foldl
          (ModeleBilanHydrique.bilan_pas
            (ModeleBilanHydrique.date_debut_bilan parcelle aujourdhui) aujourdhui
            rfu_max_mm) (rfu_max_mm, [])).1 ≤ rfu_max_mm) ∧
      (0 ≤ (ModeleBilanHydrique.calculer_bilan_rfu meteo parcelle stade rfu_max_mm
          aujourdhui).rfu_pct ∧
        (ModeleBilanHydrique.calculer_bilan_rfu meteo parcelle stade rfu_max_mm
          aujourdhui).rfu_pct ≤ 100) ∧
      (∀ p ∈ (ModeleBilanHydrique.calculer_bilan_rfu meteo parcelle stade rfu_max_mm
          aujourdhui).historique_pct, 0 ≤ p.2 ∧ p.2 ≤ 100))
  ∧ (ModeleBilanHydrique.calculer_bilan_rfu
      [(⟨2025, 100⟩, { precipitation := .val 1000 })] ⟨"P", "croissance", none⟩
      "croissance" 50 ⟨2025, 120⟩).rfu_pct = 100
  ∧ (ModeleBilanHydrique.calculer_bilan_rfu
      [(⟨2025, 100⟩, { etp := .val 1000 })] ⟨"P", "croissance", none⟩
      "croissance" 50 ⟨2025, 120⟩).rfu_pct = 0 := by
  refine ⟨?_, ?_, ?_⟩
  · intro meteo parcelle stade rfu_max_mm aujourdhui hmax
    obtain ⟨g0, g1, gh⟩ := ModeleBilanHydrique.bilan_foldl_inv
      (ModeleBilanHydrique.date_debut_bilan parcelle aujourdhui) aujourdhui hmax
      (sortByDate meteo) (rfu_max_mm, []) hmax le_rfl (by simp)
    refine ⟨⟨g0, g1⟩, ?_, ?_⟩
    · have hpct : (ModeleBilanHydrique.calculer_bilan_rfu meteo parcelle stade
          rfu_max_mm aujourdhui).rfu_pct =
          pyRound1 (if rfu_max_mm = 0 then 0 else
            ((sortByDate meteo).foldl
              (ModeleBilanHydrique.bilan_pas
                (ModeleBilanHydrique.date_debut_bilan parcelle aujourdhui) aujourdhui
                rfu_max_mm) (rfu_max_mm, [])).1 / rfu_max_mm * 100) := rfl
      rw [hpct]
      by_cases hz : rfu_max_mm = 0
      · rw [if_pos hz, pyRound1_zero]
        norm_num
      · rw [if_neg hz]
        have hpos : 0 < rfu_max_mm := lt_of_le_of_ne hmax (Ne.symm hz)
        constructor
        · exact pyRound1_nonneg (mul_nonneg (div_nonneg g0 hpos.le) (by norm_num))
        · apply pyRound1_le_hundred
          rw [div_mul_eq_mul_div, div_le_iff₀ hpos]
          linarith
    · have hhist : (ModeleBilanHydrique.calculer_bilan_rfu meteo parcelle stade
          rfu_max_mm aujourdhui).historique_pct =
          ((sortByDate meteo).foldl
            (ModeleBilanHydrique.bilan_pas
              (ModeleBilanHydrique.date_debut_bilan parcelle aujourdhui) aujourdhui
              rfu_max_mm) (rfu_max_mm, [])).2 := rfl
      rw [hhist]
      exact gh
  · unfold ModeleBilanHydrique.calculer_bilan_rfu ModeleBilanHydrique.date_debut_bilan
      ModeleBilanHydrique.bilan_pas
    norm_num [sortByDate, insertByDate, mars1, pyDateLe, Champ.getD, pyRound1_hundred]
  · unfold ModeleBilanHydrique.calculer_bilan_rfu ModeleBilanHydrique.date_debut_bilan
      ModeleBilanHydrique.bilan_pas
    norm_num [sortByDate, insertByDate, mars1, pyDateLe, Champ.getD, pyRound1_zero]

/-- Witness for C6 at a concrete history, parcel and maximum reserve. -/
theorem claim_C6_witness :
    (0 : ℚ) ≤ 50 ∧
    ((0 ≤ ((sortByDate [(⟨2025, 100⟩, { precipitation := Champ.val 3 })]).foldl
        (ModeleBilanHydrique.bilan_pas
          (ModeleBilanHydrique.date_debut_bilan ⟨"P", "croissance", none⟩ ⟨2025, 120⟩)
          ⟨2025, 120⟩ 50) (50, [])).1 ∧
      ((sortByDate [(⟨2025, 100⟩, { precipitation := Champ.val 3 })]).foldl
        (ModeleBilanHydrique.bilan_pas
          (ModeleBilanHydrique.date_debut_bilan ⟨"P", "croissance", none⟩ ⟨2025, 120⟩)
          ⟨2025, 120⟩ 50) (50, [])).1 ≤ 50) ∧
    (0 ≤ (ModeleBilanHydrique.calculer_bilan_rfu
        [(⟨2025, 100⟩, { precipitation := Champ.val 3 })] ⟨"P", "croissance", none⟩
        "croissance" 50 ⟨2025, 120⟩).rfu_pct ∧
      (ModeleBilanHydrique.calculer_bilan_rfu
        [(⟨2025, 100⟩, { precipitation := Champ.val 3 })] ⟨"P", "croissance", none⟩
        "croissance" 50 ⟨2025, 120⟩).rfu_pct ≤ 100) ∧
    (∀ p ∈ (ModeleBilanHydrique.calculer_bilan_rfu
        [(⟨2025, 100⟩, { precipitation := Champ.val 3 })] ⟨"P", "croissance", none⟩
        "croissance" 50 ⟨2025, 120⟩).historique_pct, 0 ≤ p.2 ∧ p.2 ≤ 100)) :=
  ⟨by norm_num,
   claim_C6.1 [(⟨2025, 100⟩, { precipitation := Champ.val 3 })] ⟨"P", "croissance", none⟩
     "croissance" 50 ⟨2025, 120⟩ (by norm_num)⟩
